import Mathlib

/-!
Verification of the TF-M crypto secure-API client layer
(`secure_fw/partitions/crypto/tfm_crypto_secure_api.c`).

Each `psa_*` function below is a shallow embedding of the C function of the
same name, in the `TFM_PSA_API` build (the build whose dispatch primitive is
`psa_call(TFM_CRYPTO_HANDLE, PSA_IPC_CALL, in_vec, in_len, out_vec, out_len)`;
this is the build containing the descriptor-trimming logic) with all crypto
modules enabled (no `*_MODULE_DISABLED` macro defined).

Modelling conventions:
- a C pointer-plus-contents input buffer is `Option (List Nat)`, `none`
  standing for a NULL pointer;
- an output buffer is represented by its nullness flag and its capacity,
  since this layer never reads output contents;
- the external `psa_call` primitive is modelled by a `ChanResp` value chosen
  by the environment: its status, the lengths it leaves in the dispatched
  out-descriptors, and the 32-bit value it writes through an out-descriptor
  that points at `operation->handle`;
- each embedded function returns the observable trace of the call: the status
  returned to the caller, the list of dispatches performed (zero or one),
  the value stored through each `*_length` out-pointer (if that store is
  executed), and the final content of `operation->handle`.
-/

/-- Size in bytes of `struct tfm_crypto_pack_iovec` (defined in
`tfm_crypto_defs.h`, outside the sources at hand); its exact value is
immaterial to every claim, it only appears as the length of the envelope
descriptor. -/
def iovLen : Nat := 64

/-- Size in bytes of `uint32_t`. -/
def u32Len : Nat := 4

/-- Size in bytes of `psa_hash_operation_t`; exact value immaterial. -/
def hashOpLen : Nat := 8

/-- Size in bytes of `size_t` on the 32-bit target; exact value
immaterial. -/
def sizeTLen : Nat := 4

/-- Size in bytes of `psa_key_attributes_t`; exact value immaterial. -/
def attrLen : Nat := 36

/-- Size in bytes of `psa_key_id_t`. -/
def keyIdLen : Nat := 4

/-- `TFM_CRYPTO_MAX_NONCE_LENGTH` from `tfm_crypto_defs.h` (outside the
sources at hand; the header defines it as 16). The claims only compare
against it as a fixed constant. -/
def TFM_CRYPTO_MAX_NONCE_LENGTH : Nat := 16

def PSA_SUCCESS : Int := 0
def PSA_ERROR_NOT_SUPPORTED : Int := -134
def PSA_ERROR_INVALID_ARGUMENT : Int := -135
def PSA_ERROR_BAD_STATE : Int := -137

/-- The `srv_id` field of the envelope: one constructor per
`TFM_CRYPTO_*_SID` value used by the functions modelled here. -/
inductive SrvId where
  | export_key_sid
  | cipher_encrypt_setup_sid
  | cipher_decrypt_setup_sid
  | cipher_generate_iv_sid
  | cipher_set_iv_sid
  | cipher_update_sid
  | cipher_finish_sid
  | cipher_abort_sid
  | hash_setup_sid
  | hash_update_sid
  | hash_finish_sid
  | hash_verify_sid
  | hash_abort_sid
  | hash_clone_sid
  | aead_encrypt_sid
  | aead_decrypt_sid
  | aead_update_ad_sid
  | aead_finish_sid
  | aead_verify_sid
  | asymmetric_encrypt_sid
  | asymmetric_decrypt_sid
  | generate_random_sid
  | mac_sign_setup_sid
  | mac_verify_setup_sid
  | mac_update_sid
  | mac_sign_finish_sid
  | mac_verify_finish_sid
  | mac_abort_sid
  | aead_encrypt_setup_sid
  | aead_decrypt_setup_sid
  | aead_generate_nonce_sid
  | aead_set_nonce_sid
  | aead_set_lengths_sid
  | aead_update_sid
  | aead_abort_sid
  | key_derivation_setup_sid
  | key_derivation_get_capacity_sid
  | key_derivation_set_capacity_sid
  | key_derivation_input_bytes_sid
  | key_derivation_input_key_sid
  | key_derivation_key_agreement_sid
  | key_derivation_output_bytes_sid
  | key_derivation_output_key_sid
  | key_derivation_abort_sid
  deriving Repr, DecidableEq

/-- The `.aead_in` member of the envelope: a fixed-capacity inline nonce
array (`uint8_t nonce[TFM_CRYPTO_MAX_NONCE_LENGTH]`, zero-initialised) and
its explicit length. -/
structure AeadIn where
  nonce : List Nat := List.replicate TFM_CRYPTO_MAX_NONCE_LENGTH 0
  nonce_length : Nat := 0
  deriving Repr, DecidableEq

/-- The envelope header `struct tfm_crypto_pack_iovec`. C designated
initialisers zero every unmentioned field, which the field defaults mirror. -/
structure Iovec where
  srv_id : SrvId
  key_id : Nat := 0
  alg : Nat := 0
  op_handle : Nat := 0
  capacity : Nat := 0
  ad_length : Nat := 0
  plaintext_length : Nat := 0
  step : Nat := 0
  aead_in : AeadIn := {}
  deriving Repr, DecidableEq

/-- What a buffer descriptor's `base` pointer refers to. -/
inductive Ref where
  | envlp (iov : Iovec)
  | opHandle
  | opObj (isNull : Bool)
  | inBuf (p : Option (List Nat))
  | outBuf (isNull : Bool)
  | attrRef
  deriving Repr, DecidableEq

/-- A `psa_invec` / `psa_outvec`: reference plus length. -/
structure Desc where
  ref : Ref
  len : Nat
  deriving Repr, DecidableEq

/-- One invocation of the `psa_call` primitive: the in-descriptor and
out-descriptor arrays actually passed (after any trimming). -/
structure Dispatch where
  inVec : List Desc
  outVec : List Desc
  deriving Repr, DecidableEq

/-- The environment's behaviour at one `psa_call`: the returned status, the
lengths left in the dispatched out-descriptors (`outLens.getD i orig` is
`out_vec[i].len` after the call; positions the service leaves untouched keep
the original capacity) and the word it writes through an out-descriptor that
points at `operation->handle`. -/
structure ChanResp where
  status : Int
  outLens : List Nat
  handleOut : Nat
  deriving Repr, DecidableEq

/-- `out_vec[i].len` after `psa_call` returned, given original capacity. -/
def ChanResp.lenAt (r : ChanResp) (i : Nat) (orig : Nat) : Nat :=
  r.outLens.getD i orig

/-- Observable trace of one client-layer call. `lenWrite` is the value
stored through the main `*_length` out-pointer (`none` when the function
returns before that store), `lenWrite2` a second such store
(`*tag_length` in `psa_aead_finish`), `handleAfter` the final content of
`operation->handle` for operation-based calls. -/
structure CallOut where
  status : Int
  dispatches : List Dispatch
  lenWrite : Option Nat := none
  lenWrite2 : Option Nat := none
  handleAfter : Option Nat := none
  deriving Repr, DecidableEq

/-- In-descriptors of the (single) dispatch of a trace. -/
def CallOut.dispatchedIn (c : CallOut) : List Desc :=
  (c.dispatches.headD ⟨[], []⟩).inVec

/-- Out-descriptors of the (single) dispatch of a trace. -/
def CallOut.dispatchedOut (c : CallOut) : List Desc :=
  (c.dispatches.headD ⟨[], []⟩).outVec

/-- The envelope sent by the (single) dispatch of a trace, when the first
in-descriptor is the envelope descriptor. -/
def CallOut.sentEnvelope (c : CallOut) : Option Iovec :=
  match c.dispatches with
  | [d] =>
    match d.inVec with
    | ⟨Ref.envlp iov, _⟩ :: _ => some iov
    | _ => none
  | _ => none

/-- Continuation handle carried in the envelope of the (single) dispatch. -/
def CallOut.suppliedHandle (c : CallOut) : Option Nat :=
  (c.sentEnvelope).map Iovec.op_handle

/-- Effect of the C copy loop `for (idx = 0; idx < n; idx++)
iov.aead_in.nonce[idx] = nonce[idx];` over the zero-initialised inline
array. -/
def nonceFill (src : List Nat) (n : Nat) : List Nat :=
  src.take n ++ (List.replicate TFM_CRYPTO_MAX_NONCE_LENGTH 0).drop n

/-- Envelope built by `psa_aead_encrypt` / `psa_aead_decrypt`: nonce copied
only when the nonce pointer is non-NULL, otherwise the inline field keeps
its zero initialiser. -/
def aeadEnvelope (sid : SrvId) (key alg : Nat) (nonce : Option (List Nat))
    (nonce_length : Nat) : Iovec :=
  { srv_id := sid, key_id := key, alg := alg,
    aead_in :=
      match nonce with
      | some nb => { nonce := nonceFill nb nonce_length,
                     nonce_length := nonce_length }
      | none => {} }

/-- `psa_export_key` (tfm_crypto_secure_api.c:191-218): one envelope
in-descriptor, one data out-descriptor; `*data_length = out_vec[0].len`
unconditionally after the dispatch. -/
def psa_export_key (key : Nat) (dataNull : Bool) (data_size : Nat)
    (r : ChanResp) : CallOut :=
  { status := r.status
    dispatches := [⟨[⟨Ref.envlp { srv_id := .export_key_sid, key_id := key },
                      iovLen⟩],
                    [⟨Ref.outBuf dataNull, data_size⟩]⟩]
    lenWrite := some (r.lenAt 0 data_size) }

/-- `psa_hash_finish` (tfm_crypto_secure_api.c:563-592): envelope in;
handle and hash out; `*hash_length = out_vec[1].len` unconditionally. -/
def psa_hash_finish (h : Nat) (hashNull : Bool) (hash_size : Nat)
    (r : ChanResp) : CallOut :=
  { status := r.status
    dispatches := [⟨[⟨Ref.envlp { srv_id := .hash_finish_sid, op_handle := h },
                      iovLen⟩],
                    [⟨Ref.opHandle, u32Len⟩,
                     ⟨Ref.outBuf hashNull, hash_size⟩]⟩]
    lenWrite := some (r.lenAt 1 hash_size)
    handleAfter := some r.handleOut }

/-- `psa_cipher_update` (tfm_crypto_secure_api.c:418-450): envelope and
input in; handle and output out; `*output_length = out_vec[1].len`
unconditionally. -/
def psa_cipher_update (h : Nat) (input : Option (List Nat))
    (input_length : Nat) (outNull : Bool) (output_size : Nat)
    (r : ChanResp) : CallOut :=
  { status := r.status
    dispatches := [⟨[⟨Ref.envlp { srv_id := .cipher_update_sid,
                                  op_handle := h }, iovLen⟩,
                     ⟨Ref.inBuf input, input_length⟩],
                    [⟨Ref.opHandle, u32Len⟩,
                     ⟨Ref.outBuf outNull, output_size⟩]⟩]
    lenWrite := some (r.lenAt 1 output_size)
    handleAfter := some r.handleOut }

/-- `psa_cipher_encrypt_setup` (tfm_crypto_secure_api.c:359-386). -/
def psa_cipher_encrypt_setup (h key alg : Nat) (r : ChanResp) : CallOut :=
  { status := r.status
    dispatches := [⟨[⟨Ref.envlp { srv_id := .cipher_encrypt_setup_sid,
                                  key_id := key, alg := alg,
                                  op_handle := h }, iovLen⟩],
                    [⟨Ref.opHandle, u32Len⟩]⟩]
    handleAfter := some r.handleOut }

/-- `psa_cipher_decrypt_setup` (tfm_crypto_secure_api.c:388-416). -/
def psa_cipher_decrypt_setup (h key alg : Nat) (r : ChanResp) : CallOut :=
  { status := r.status
    dispatches := [⟨[⟨Ref.envlp { srv_id := .cipher_decrypt_setup_sid,
                                  key_id := key, alg := alg,
                                  op_handle := h }, iovLen⟩],
                    [⟨Ref.opHandle, u32Len⟩]⟩]
    handleAfter := some r.handleOut }

/-- `psa_cipher_generate_iv` (tfm_crypto_secure_api.c:300-329). -/
def psa_cipher_generate_iv (h : Nat) (ivNull : Bool) (iv_size : Nat)
    (r : ChanResp) : CallOut :=
  { status := r.status
    dispatches := [⟨[⟨Ref.envlp { srv_id := .cipher_generate_iv_sid,
                                  op_handle := h }, iovLen⟩],
                    [⟨Ref.opHandle, u32Len⟩,
                     ⟨Ref.outBuf ivNull, iv_size⟩]⟩]
    lenWrite := some (r.lenAt 1 iv_size)
    handleAfter := some r.handleOut }

/-- `psa_cipher_set_iv` (tfm_crypto_secure_api.c:331-357). -/
def psa_cipher_set_iv (h : Nat) (iv : Option (List Nat)) (iv_length : Nat)
    (r : ChanResp) : CallOut :=
  { status := r.status
    dispatches := [⟨[⟨Ref.envlp { srv_id := .cipher_set_iv_sid,
                                  op_handle := h }, iovLen⟩,
                     ⟨Ref.inBuf iv, iv_length⟩],
                    [⟨Ref.opHandle, u32Len⟩]⟩]
    handleAfter := some r.handleOut }

/-- `psa_cipher_finish` (tfm_crypto_secure_api.c:477-506). -/
def psa_cipher_finish (h : Nat) (outNull : Bool) (output_size : Nat)
    (r : ChanResp) : CallOut :=
  { status := r.status
    dispatches := [⟨[⟨Ref.envlp { srv_id := .cipher_finish_sid,
                                  op_handle := h }, iovLen⟩],
                    [⟨Ref.opHandle, u32Len⟩,
                     ⟨Ref.outBuf outNull, output_size⟩]⟩]
    lenWrite := some (r.lenAt 1 output_size)
    handleAfter := some r.handleOut }

/-- `psa_cipher_abort` (tfm_crypto_secure_api.c:452-475). -/
def psa_cipher_abort (h : Nat) (r : ChanResp) : CallOut :=
  { status := r.status
    dispatches := [⟨[⟨Ref.envlp { srv_id := .cipher_abort_sid,
                                  op_handle := h }, iovLen⟩],
                    [⟨Ref.opHandle, u32Len⟩]⟩]
    handleAfter := some r.handleOut }

/-- `psa_hash_setup` (tfm_crypto_secure_api.c:508-533). -/
def psa_hash_setup (h alg : Nat) (r : ChanResp) : CallOut :=
  { status := r.status
    dispatches := [⟨[⟨Ref.envlp { srv_id := .hash_setup_sid, alg := alg,
                                  op_handle := h }, iovLen⟩],
                    [⟨Ref.opHandle, u32Len⟩]⟩]
    handleAfter := some r.handleOut }

/-- `psa_hash_update` (tfm_crypto_secure_api.c:535-561). -/
def psa_hash_update (h : Nat) (input : Option (List Nat))
    (input_length : Nat) (r : ChanResp) : CallOut :=
  { status := r.status
    dispatches := [⟨[⟨Ref.envlp { srv_id := .hash_update_sid,
                                  op_handle := h }, iovLen⟩,
                     ⟨Ref.inBuf input, input_length⟩],
                    [⟨Ref.opHandle, u32Len⟩]⟩]
    handleAfter := some r.handleOut }

/-- `psa_hash_verify` (tfm_crypto_secure_api.c:594-620). -/
def psa_hash_verify (h : Nat) (hash : Option (List Nat))
    (hash_length : Nat) (r : ChanResp) : CallOut :=
  { status := r.status
    dispatches := [⟨[⟨Ref.envlp { srv_id := .hash_verify_sid,
                                  op_handle := h }, iovLen⟩,
                     ⟨Ref.inBuf hash, hash_length⟩],
                    [⟨Ref.opHandle, u32Len⟩]⟩]
    handleAfter := some r.handleOut }

/-- `psa_hash_abort` (tfm_crypto_secure_api.c:622-645). -/
def psa_hash_abort (h : Nat) (r : ChanResp) : CallOut :=
  { status := r.status
    dispatches := [⟨[⟨Ref.envlp { srv_id := .hash_abort_sid,
                                  op_handle := h }, iovLen⟩],
                    [⟨Ref.opHandle, u32Len⟩]⟩]
    handleAfter := some r.handleOut }

/-- Observable trace of `psa_hash_clone`: the two operation objects are
distinct, so the trace records the source handle (never written: the source
is `const`) and the target object's handle field after the call. -/
structure CloneOut where
  status : Int
  dispatches : List Dispatch
  sourceHandleAfter : Nat
  targetAfter : Option Nat
  deriving Repr, DecidableEq

/-- `psa_hash_clone` (tfm_crypto_secure_api.c:647-675): rejects locally with
`PSA_ERROR_BAD_STATE`, before dispatching, a non-NULL destination whose
handle is non-zero; otherwise dispatches with the whole destination object
as the single out-descriptor. `target` is the destination's handle field
(`none` for a NULL destination pointer). -/
def psa_hash_clone (srcH : Nat) (target : Option Nat) (r : ChanResp) :
    CloneOut :=
  match target with
  | some t =>
    if t ≠ 0 then
      { status := PSA_ERROR_BAD_STATE, dispatches := []
        sourceHandleAfter := srcH, targetAfter := some t }
    else
      { status := r.status
        dispatches := [⟨[⟨Ref.envlp { srv_id := .hash_clone_sid,
                                      op_handle := srcH }, iovLen⟩],
                        [⟨Ref.opObj false, hashOpLen⟩]⟩]
        sourceHandleAfter := srcH, targetAfter := some r.handleOut }
  | none =>
    { status := r.status
      dispatches := [⟨[⟨Ref.envlp { srv_id := .hash_clone_sid,
                                    op_handle := srcH }, iovLen⟩],
                      [⟨Ref.opObj true, hashOpLen⟩]⟩]
      sourceHandleAfter := srcH, targetAfter := none }

/-- `psa_aead_encrypt` (tfm_crypto_secure_api.c:909-977): sanitises the
optional additional data (NULL pointer with non-zero length is
`PSA_ERROR_INVALID_ARGUMENT` before anything else), rejects an oversize
nonce before the inline copy, copies the nonce into the envelope only when
its pointer is non-NULL, trims the trailing additional-data in-descriptor
when its pointer is NULL, and stores `out_vec[0].len` to
`*ciphertext_length` unconditionally after the dispatch. -/
def psa_aead_encrypt (key alg : Nat) (nonce : Option (List Nat))
    (nonce_length : Nat) (additional_data : Option (List Nat))
    (additional_data_length : Nat) (plaintext : Option (List Nat))
    (plaintext_length : Nat) (ctNull : Bool) (ciphertext_size : Nat)
    (r : ChanResp) : CallOut :=
  if additional_data = none ∧ additional_data_length ≠ 0 then
    { status := PSA_ERROR_INVALID_ARGUMENT, dispatches := [] }
  else if TFM_CRYPTO_MAX_NONCE_LENGTH < nonce_length then
    { status := PSA_ERROR_INVALID_ARGUMENT, dispatches := [] }
  else
    { status := r.status
      dispatches :=
        [⟨[⟨Ref.envlp (aeadEnvelope .aead_encrypt_sid key alg nonce
                        nonce_length), iovLen⟩,
           ⟨Ref.inBuf plaintext, plaintext_length⟩,
           ⟨Ref.inBuf additional_data, additional_data_length⟩].take
            (if additional_data = none then 2 else 3),
          [⟨Ref.outBuf ctNull, ciphertext_size⟩]⟩]
      lenWrite := some (r.lenAt 0 ciphertext_size) }

/-- `psa_aead_decrypt` (tfm_crypto_secure_api.c:979-1047): mirror image of
`psa_aead_encrypt` with ciphertext as the payload in-descriptor. -/
def psa_aead_decrypt (key alg : Nat) (nonce : Option (List Nat))
    (nonce_length : Nat) (additional_data : Option (List Nat))
    (additional_data_length : Nat) (ciphertext : Option (List Nat))
    (ciphertext_length : Nat) (ptNull : Bool) (plaintext_size : Nat)
    (r : ChanResp) : CallOut :=
  if additional_data = none ∧ additional_data_length ≠ 0 then
    { status := PSA_ERROR_INVALID_ARGUMENT, dispatches := [] }
  else if TFM_CRYPTO_MAX_NONCE_LENGTH < nonce_length then
    { status := PSA_ERROR_INVALID_ARGUMENT, dispatches := [] }
  else
    { status := r.status
      dispatches :=
        [⟨[⟨Ref.envlp (aeadEnvelope .aead_decrypt_sid key alg nonce
                        nonce_length), iovLen⟩,
           ⟨Ref.inBuf ciphertext, ciphertext_length⟩,
           ⟨Ref.inBuf additional_data, additional_data_length⟩].take
            (if additional_data = none then 2 else 3),
          [⟨Ref.outBuf ptNull, plaintext_size⟩]⟩]
      lenWrite := some (r.lenAt 0 plaintext_size) }

/-- `psa_aead_update_ad` (tfm_crypto_secure_api.c:1190-1231): sanitises the
optional input, then trims the trailing input descriptor when the input
pointer is NULL. -/
def psa_aead_update_ad (h : Nat) (input : Option (List Nat))
    (input_length : Nat) (r : ChanResp) : CallOut :=
  if input = none ∧ input_length ≠ 0 then
    { status := PSA_ERROR_INVALID_ARGUMENT, dispatches := []
      handleAfter := some h }
  else
    { status := r.status
      dispatches :=
        [⟨[⟨Ref.envlp { srv_id := .aead_update_ad_sid, op_handle := h },
            iovLen⟩,
           ⟨Ref.inBuf input, input_length⟩].take
            (if input = none then 1 else 2),
          [⟨Ref.opHandle, u32Len⟩]⟩]
      handleAfter := some r.handleOut }

/-- `psa_aead_finish` (tfm_crypto_secure_api.c:1281-1343): sanitises the
optional ciphertext output, elides the trailing ciphertext out-descriptor
when the ciphertext pointer is NULL or its capacity is 0, rejects a NULL
`ciphertext_length` pointer (before dispatch) only when the descriptor is
kept, stores `out_vec[2].len` or 0 to `*ciphertext_length` accordingly and
`out_vec[1].len` to `*tag_length` unconditionally. -/
def psa_aead_finish (h : Nat) (ctNull : Bool) (ciphertext_size : Nat)
    (ctLenNull : Bool) (tagNull : Bool) (tag_size : Nat)
    (r : ChanResp) : CallOut :=
  if ctNull ∧ ciphertext_size ≠ 0 then
    { status := PSA_ERROR_INVALID_ARGUMENT, dispatches := []
      handleAfter := some h }
  else if (¬(ctNull ∨ ciphertext_size = 0)) ∧ ctLenNull then
    { status := PSA_ERROR_INVALID_ARGUMENT, dispatches := []
      handleAfter := some h }
  else
    { status := r.status
      dispatches :=
        [⟨[⟨Ref.envlp { srv_id := .aead_finish_sid, op_handle := h },
            iovLen⟩],
          [⟨Ref.opHandle, u32Len⟩,
           ⟨Ref.outBuf tagNull, tag_size⟩,
           ⟨Ref.outBuf ctNull, ciphertext_size⟩].take
            (if ctNull ∨ ciphertext_size = 0 then 2 else 3)⟩]
      lenWrite := some (if ctNull ∨ ciphertext_size = 0 then 0
                        else r.lenAt 2 ciphertext_size)
      lenWrite2 := some (r.lenAt 1 tag_size)
      handleAfter := some r.handleOut }

/-- `psa_aead_verify` (tfm_crypto_secure_api.c:1345-1403): analogue of
`psa_aead_finish` for the optional plaintext output. -/
def psa_aead_verify (h : Nat) (ptNull : Bool) (plaintext_size : Nat)
    (ptLenNull : Bool) (tag : Option (List Nat)) (tag_length : Nat)
    (r : ChanResp) : CallOut :=
  if ptNull ∧ plaintext_size ≠ 0 then
    { status := PSA_ERROR_INVALID_ARGUMENT, dispatches := []
      handleAfter := some h }
  else if (¬(ptNull ∨ plaintext_size = 0)) ∧ ptLenNull then
    { status := PSA_ERROR_INVALID_ARGUMENT, dispatches := []
      handleAfter := some h }
  else
    { status := r.status
      dispatches :=
        [⟨[⟨Ref.envlp { srv_id := .aead_verify_sid, op_handle := h },
            iovLen⟩,
           ⟨Ref.inBuf tag, tag_length⟩],
          [⟨Ref.opHandle, u32Len⟩,
           ⟨Ref.outBuf ptNull, plaintext_size⟩].take
            (if ptNull ∨ plaintext_size = 0 then 1 else 2)⟩]
      lenWrite := some (if ptNull ∨ plaintext_size = 0 then 0
                        else r.lenAt 1 plaintext_size)
      handleAfter := some r.handleOut }

/-- `psa_asymmetric_encrypt` (tfm_crypto_secure_api.c:1558-1610): sanitises
the optional salt, trims the trailing salt in-descriptor when the salt
pointer is NULL, stores `out_vec[0].len` to `*output_length`
unconditionally after the dispatch. -/
def psa_asymmetric_encrypt (key alg : Nat) (input : Option (List Nat))
    (input_length : Nat) (salt : Option (List Nat)) (salt_length : Nat)
    (outNull : Bool) (output_size : Nat) (r : ChanResp) : CallOut :=
  if salt = none ∧ salt_length ≠ 0 then
    { status := PSA_ERROR_INVALID_ARGUMENT, dispatches := [] }
  else
    { status := r.status
      dispatches :=
        [⟨[⟨Ref.envlp { srv_id := .asymmetric_encrypt_sid, key_id := key,
                        alg := alg }, iovLen⟩,
           ⟨Ref.inBuf input, input_length⟩,
           ⟨Ref.inBuf salt, salt_length⟩].take
            (if salt = none then 2 else 3),
          [⟨Ref.outBuf outNull, output_size⟩]⟩]
      lenWrite := some (r.lenAt 0 output_size) }

/-- `psa_asymmetric_decrypt` (tfm_crypto_secure_api.c:1612-1664). -/
def psa_asymmetric_decrypt (key alg : Nat) (input : Option (List Nat))
    (input_length : Nat) (salt : Option (List Nat)) (salt_length : Nat)
    (outNull : Bool) (output_size : Nat) (r : ChanResp) : CallOut :=
  if salt = none ∧ salt_length ≠ 0 then
    { status := PSA_ERROR_INVALID_ARGUMENT, dispatches := [] }
  else
    { status := r.status
      dispatches :=
        [⟨[⟨Ref.envlp { srv_id := .asymmetric_decrypt_sid, key_id := key,
                        alg := alg }, iovLen⟩,
           ⟨Ref.inBuf input, input_length⟩,
           ⟨Ref.inBuf salt, salt_length⟩].take
            (if salt = none then 2 else 3),
          [⟨Ref.outBuf outNull, output_size⟩]⟩]
      lenWrite := some (r.lenAt 0 output_size) }

/-- `psa_generate_random` (tfm_crypto_secure_api.c:1815-1843): a zero
`output_size` returns `PSA_SUCCESS` before the dispatch. -/
def psa_generate_random (outNull : Bool) (output_size : Nat)
    (r : ChanResp) : CallOut :=
  if output_size = 0 then
    { status := PSA_SUCCESS, dispatches := [] }
  else
    { status := r.status
      dispatches := [⟨[⟨Ref.envlp { srv_id := .generate_random_sid },
                        iovLen⟩],
                      [⟨Ref.outBuf outNull, output_size⟩]⟩] }

/-- `psa_mac_sign_setup` (tfm_crypto_secure_api.c:739-766). -/
def psa_mac_sign_setup (h key alg : Nat) (r : ChanResp) : CallOut :=
  { status := r.status
    dispatches := [⟨[⟨Ref.envlp { srv_id := .mac_sign_setup_sid,
                                  key_id := key, alg := alg,
                                  op_handle := h }, iovLen⟩],
                    [⟨Ref.opHandle, u32Len⟩]⟩]
    handleAfter := some r.handleOut }

/-- `psa_mac_verify_setup` (tfm_crypto_secure_api.c:768-795). -/
def psa_mac_verify_setup (h key alg : Nat) (r : ChanResp) : CallOut :=
  { status := r.status
    dispatches := [⟨[⟨Ref.envlp { srv_id := .mac_verify_setup_sid,
                                  key_id := key, alg := alg,
                                  op_handle := h }, iovLen⟩],
                    [⟨Ref.opHandle, u32Len⟩]⟩]
    handleAfter := some r.handleOut }

/-- `psa_mac_update` (tfm_crypto_secure_api.c:797-823). -/
def psa_mac_update (h : Nat) (input : Option (List Nat))
    (input_length : Nat) (r : ChanResp) : CallOut :=
  { status := r.status
    dispatches := [⟨[⟨Ref.envlp { srv_id := .mac_update_sid,
                                  op_handle := h }, iovLen⟩,
                     ⟨Ref.inBuf input, input_length⟩],
                    [⟨Ref.opHandle, u32Len⟩]⟩]
    handleAfter := some r.handleOut }

/-- `psa_mac_sign_finish` (tfm_crypto_secure_api.c:825-854):
`*mac_length = out_vec[1].len` unconditionally. -/
def psa_mac_sign_finish (h : Nat) (macNull : Bool) (mac_size : Nat)
    (r : ChanResp) : CallOut :=
  { status := r.status
    dispatches := [⟨[⟨Ref.envlp { srv_id := .mac_sign_finish_sid,
                                  op_handle := h }, iovLen⟩],
                    [⟨Ref.opHandle, u32Len⟩,
                     ⟨Ref.outBuf macNull, mac_size⟩]⟩]
    lenWrite := some (r.lenAt 1 mac_size)
    handleAfter := some r.handleOut }

/-- `psa_mac_verify_finish` (tfm_crypto_secure_api.c:856-882). -/
def psa_mac_verify_finish (h : Nat) (mac : Option (List Nat))
    (mac_length : Nat) (r : ChanResp) : CallOut :=
  { status := r.status
    dispatches := [⟨[⟨Ref.envlp { srv_id := .mac_verify_finish_sid,
                                  op_handle := h }, iovLen⟩,
                     ⟨Ref.inBuf mac, mac_length⟩],
                    [⟨Ref.opHandle, u32Len⟩]⟩]
    handleAfter := some r.handleOut }

/-- `psa_mac_abort` (tfm_crypto_secure_api.c:884-907). -/
def psa_mac_abort (h : Nat) (r : ChanResp) : CallOut :=
  { status := r.status
    dispatches := [⟨[⟨Ref.envlp { srv_id := .mac_abort_sid,
                                  op_handle := h }, iovLen⟩],
                    [⟨Ref.opHandle, u32Len⟩]⟩]
    handleAfter := some r.handleOut }

/-- `psa_aead_encrypt_setup` (tfm_crypto_secure_api.c:1049-1075). -/
def psa_aead_encrypt_setup (h key alg : Nat) (r : ChanResp) : CallOut :=
  { status := r.status
    dispatches := [⟨[⟨Ref.envlp { srv_id := .aead_encrypt_setup_sid,
                                  key_id := key, alg := alg,
                                  op_handle := h }, iovLen⟩],
                    [⟨Ref.opHandle, u32Len⟩]⟩]
    handleAfter := some r.handleOut }

/-- `psa_aead_decrypt_setup` (tfm_crypto_secure_api.c:1077-1103). -/
def psa_aead_decrypt_setup (h key alg : Nat) (r : ChanResp) : CallOut :=
  { status := r.status
    dispatches := [⟨[⟨Ref.envlp { srv_id := .aead_decrypt_setup_sid,
                                  key_id := key, alg := alg,
                                  op_handle := h }, iovLen⟩],
                    [⟨Ref.opHandle, u32Len⟩]⟩]
    handleAfter := some r.handleOut }

/-- `psa_aead_generate_nonce` (tfm_crypto_secure_api.c:1105-1133):
`*nonce_length = out_vec[1].len` unconditionally. -/
def psa_aead_generate_nonce (h : Nat) (nonceNull : Bool) (nonce_size : Nat)
    (r : ChanResp) : CallOut :=
  { status := r.status
    dispatches := [⟨[⟨Ref.envlp { srv_id := .aead_generate_nonce_sid,
                                  op_handle := h }, iovLen⟩],
                    [⟨Ref.opHandle, u32Len⟩,
                     ⟨Ref.outBuf nonceNull, nonce_size⟩]⟩]
    lenWrite := some (r.lenAt 1 nonce_size)
    handleAfter := some r.handleOut }

/-- `psa_aead_set_nonce` (tfm_crypto_secure_api.c:1135-1160). -/
def psa_aead_set_nonce (h : Nat) (nonce : Option (List Nat))
    (nonce_length : Nat) (r : ChanResp) : CallOut :=
  { status := r.status
    dispatches := [⟨[⟨Ref.envlp { srv_id := .aead_set_nonce_sid,
                                  op_handle := h }, iovLen⟩,
                     ⟨Ref.inBuf nonce, nonce_length⟩],
                    [⟨Ref.opHandle, u32Len⟩]⟩]
    handleAfter := some r.handleOut }

/-- `psa_aead_set_lengths` (tfm_crypto_secure_api.c:1162-1188): the two
lengths travel as scalar fields of the envelope. -/
def psa_aead_set_lengths (h ad_length plaintext_length : Nat)
    (r : ChanResp) : CallOut :=
  { status := r.status
    dispatches := [⟨[⟨Ref.envlp { srv_id := .aead_set_lengths_sid,
                                  ad_length := ad_length,
                                  plaintext_length := plaintext_length,
                                  op_handle := h }, iovLen⟩],
                    [⟨Ref.opHandle, u32Len⟩]⟩]
    handleAfter := some r.handleOut }

/-- `psa_aead_update` (tfm_crypto_secure_api.c:1233-1279): sanitises the
optional input, trims the trailing input descriptor when the input pointer
is NULL, and stores `out_vec[1].len` to `*output_length` unconditionally
after the dispatch. -/
def psa_aead_update (h : Nat) (input : Option (List Nat))
    (input_length : Nat) (outNull : Bool) (output_size : Nat)
    (r : ChanResp) : CallOut :=
  if input = none ∧ input_length ≠ 0 then
    { status := PSA_ERROR_INVALID_ARGUMENT, dispatches := []
      handleAfter := some h }
  else
    { status := r.status
      dispatches :=
        [⟨[⟨Ref.envlp { srv_id := .aead_update_sid, op_handle := h },
            iovLen⟩,
           ⟨Ref.inBuf input, input_length⟩].take
            (if input = none then 1 else 2),
          [⟨Ref.opHandle, u32Len⟩,
           ⟨Ref.outBuf outNull, output_size⟩]⟩]
      lenWrite := some (r.lenAt 1 output_size)
      handleAfter := some r.handleOut }

/-- `psa_aead_abort` (tfm_crypto_secure_api.c:1405-1427). -/
def psa_aead_abort (h : Nat) (r : ChanResp) : CallOut :=
  { status := r.status
    dispatches := [⟨[⟨Ref.envlp { srv_id := .aead_abort_sid,
                                  op_handle := h }, iovLen⟩],
                    [⟨Ref.opHandle, u32Len⟩]⟩]
    handleAfter := some r.handleOut }

/-- `psa_key_derivation_setup` (tfm_crypto_secure_api.c:2040-2065). -/
def psa_key_derivation_setup (h alg : Nat) (r : ChanResp) : CallOut :=
  { status := r.status
    dispatches := [⟨[⟨Ref.envlp { srv_id := .key_derivation_setup_sid,
                                  alg := alg, op_handle := h }, iovLen⟩],
                    [⟨Ref.opHandle, u32Len⟩]⟩]
    handleAfter := some r.handleOut }

/-- `psa_key_derivation_get_capacity` (tfm_crypto_secure_api.c:1666-1693):
the capacity comes back through a dedicated `size_t`-sized out-descriptor;
no caller length store. -/
def psa_key_derivation_get_capacity (h : Nat) (capNull : Bool)
    (r : ChanResp) : CallOut :=
  { status := r.status
    dispatches :=
      [⟨[⟨Ref.envlp { srv_id := .key_derivation_get_capacity_sid,
                      op_handle := h }, iovLen⟩],
        [⟨Ref.opHandle, u32Len⟩, ⟨Ref.outBuf capNull, sizeTLen⟩]⟩]
    handleAfter := some r.handleOut }

/-- `psa_key_derivation_set_capacity` (tfm_crypto_secure_api.c:2067-2094):
the capacity travels as a scalar field of the envelope. -/
def psa_key_derivation_set_capacity (h capacity : Nat)
    (r : ChanResp) : CallOut :=
  { status := r.status
    dispatches :=
      [⟨[⟨Ref.envlp { srv_id := .key_derivation_set_capacity_sid,
                      capacity := capacity, op_handle := h }, iovLen⟩],
        [⟨Ref.opHandle, u32Len⟩]⟩]
    handleAfter := some r.handleOut }

/-- `psa_key_derivation_input_bytes` (tfm_crypto_secure_api.c:2096-2126). -/
def psa_key_derivation_input_bytes (h stp : Nat)
    (data : Option (List Nat)) (data_length : Nat)
    (r : ChanResp) : CallOut :=
  { status := r.status
    dispatches :=
      [⟨[⟨Ref.envlp { srv_id := .key_derivation_input_bytes_sid,
                      step := stp, op_handle := h }, iovLen⟩,
         ⟨Ref.inBuf data, data_length⟩],
        [⟨Ref.opHandle, u32Len⟩]⟩]
    handleAfter := some r.handleOut }

/-- `psa_key_derivation_input_key` (tfm_crypto_secure_api.c:1724-1753). -/
def psa_key_derivation_input_key (h stp key : Nat)
    (r : ChanResp) : CallOut :=
  { status := r.status
    dispatches :=
      [⟨[⟨Ref.envlp { srv_id := .key_derivation_input_key_sid,
                      key_id := key, step := stp, op_handle := h },
          iovLen⟩],
        [⟨Ref.opHandle, u32Len⟩]⟩]
    handleAfter := some r.handleOut }

/-- `psa_key_derivation_key_agreement` (tfm_crypto_secure_api.c:1781-1813). -/
def psa_key_derivation_key_agreement (h stp key : Nat)
    (peer : Option (List Nat)) (peer_key_length : Nat)
    (r : ChanResp) : CallOut :=
  { status := r.status
    dispatches :=
      [⟨[⟨Ref.envlp { srv_id := .key_derivation_key_agreement_sid,
                      key_id := key, step := stp, op_handle := h },
          iovLen⟩,
         ⟨Ref.inBuf peer, peer_key_length⟩],
        [⟨Ref.opHandle, u32Len⟩]⟩]
    handleAfter := some r.handleOut }

/-- `psa_key_derivation_output_bytes` (tfm_crypto_secure_api.c:1695-1722):
the only streaming call whose out-vector has no handle descriptor, so the
operation's handle field is left unchanged. -/
def psa_key_derivation_output_bytes (h : Nat) (outNull : Bool)
    (output_length : Nat) (r : ChanResp) : CallOut :=
  { status := r.status
    dispatches :=
      [⟨[⟨Ref.envlp { srv_id := .key_derivation_output_bytes_sid,
                      op_handle := h }, iovLen⟩],
        [⟨Ref.outBuf outNull, output_length⟩]⟩]
    handleAfter := some h }

/-- `psa_key_derivation_output_key` (tfm_crypto_secure_api.c:2128-2157). -/
def psa_key_derivation_output_key (h : Nat) (keyIdNull : Bool)
    (r : ChanResp) : CallOut :=
  { status := r.status
    dispatches :=
      [⟨[⟨Ref.envlp { srv_id := .key_derivation_output_key_sid,
                      op_handle := h }, iovLen⟩,
         ⟨Ref.attrRef, attrLen⟩],
        [⟨Ref.opHandle, u32Len⟩, ⟨Ref.outBuf keyIdNull, keyIdLen⟩]⟩]
    handleAfter := some r.handleOut }

/-- `psa_key_derivation_abort` (tfm_crypto_secure_api.c:1755-1779). -/
def psa_key_derivation_abort (h : Nat) (r : ChanResp) : CallOut :=
  { status := r.status
    dispatches :=
      [⟨[⟨Ref.envlp { srv_id := .key_derivation_abort_sid,
                      op_handle := h }, iovLen⟩],
        [⟨Ref.opHandle, u32Len⟩]⟩]
    handleAfter := some r.handleOut }

/-- One constructor per `psa_*` function of tfm_crypto_secure_api.c that
contains a dispatch site, carrying exactly the argument data that the
source's descriptor-count computation depends on (a nullness flag for each
optional descriptor whose absence trims the dispatched count in the
`TFM_PSA_API` build). -/
inductive CryptoCall where
  | open_key
  | close_key
  | import_key
  | destroy_key
  | get_key_attributes
  | reset_key_attributes
  | export_key
  | export_public_key
  | purge_key
  | copy_key
  | cipher_generate_iv
  | cipher_set_iv
  | cipher_encrypt_setup
  | cipher_decrypt_setup
  | cipher_update
  | cipher_abort
  | cipher_finish
  | hash_setup
  | hash_update
  | hash_finish
  | hash_verify
  | hash_abort
  | hash_clone
  | hash_compute
  | hash_compare
  | mac_sign_setup
  | mac_verify_setup
  | mac_update
  | mac_sign_finish
  | mac_verify_finish
  | mac_abort
  | aead_encrypt (adNull : Bool)
  | aead_decrypt (adNull : Bool)
  | aead_encrypt_setup
  | aead_decrypt_setup
  | aead_generate_nonce
  | aead_set_nonce
  | aead_set_lengths
  | aead_update_ad (inputNull : Bool)
  | aead_update (inputNull : Bool)
  | aead_finish (ctElided : Bool)
  | aead_verify (ptElided : Bool)
  | aead_abort
  | sign_message
  | verify_message
  | sign_hash
  | verify_hash
  | asymmetric_encrypt (saltNull : Bool)
  | asymmetric_decrypt (saltNull : Bool)
  | key_derivation_get_capacity
  | key_derivation_output_bytes
  | key_derivation_input_key
  | key_derivation_abort
  | key_derivation_key_agreement
  | generate_random
  | generate_key
  | mac_compute
  | mac_verify
  | cipher_encrypt
  | cipher_decrypt
  | raw_key_agreement
  | key_derivation_setup
  | key_derivation_set_capacity
  | key_derivation_input_bytes
  | key_derivation_output_key

/-- Number of in-descriptors passed to `psa_call` by each function, read
off the `in_vec[]` array literal of the source and the `in_len--` trimming
of the `TFM_PSA_API` build. -/
def CryptoCall.inCount : CryptoCall → Nat
  | .open_key => 2
  | .close_key => 1
  | .import_key => 3
  | .destroy_key => 1
  | .get_key_attributes => 1
  | .reset_key_attributes => 1
  | .export_key => 1
  | .export_public_key => 1
  | .purge_key => 1
  | .copy_key => 2
  | .cipher_generate_iv => 1
  | .cipher_set_iv => 2
  | .cipher_encrypt_setup => 1
  | .cipher_decrypt_setup => 1
  | .cipher_update => 2
  | .cipher_abort => 1
  | .cipher_finish => 1
  | .hash_setup => 1
  | .hash_update => 2
  | .hash_finish => 1
  | .hash_verify => 2
  | .hash_abort => 1
  | .hash_clone => 1
  | .hash_compute => 2
  | .hash_compare => 3
  | .mac_sign_setup => 1
  | .mac_verify_setup => 1
  | .mac_update => 2
  | .mac_sign_finish => 1
  | .mac_verify_finish => 2
  | .mac_abort => 1
  | .aead_encrypt adNull => if adNull then 2 else 3
  | .aead_decrypt adNull => if adNull then 2 else 3
  | .aead_encrypt_setup => 1
  | .aead_decrypt_setup => 1
  | .aead_generate_nonce => 1
  | .aead_set_nonce => 2
  | .aead_set_lengths => 1
  | .aead_update_ad inputNull => if inputNull then 1 else 2
  | .aead_update inputNull => if inputNull then 1 else 2
  | .aead_finish _ => 1
  | .aead_verify _ => 2
  | .aead_abort => 1
  | .sign_message => 2
  | .verify_message => 3
  | .sign_hash => 2
  | .verify_hash => 3
  | .asymmetric_encrypt saltNull => if saltNull then 2 else 3
  | .asymmetric_decrypt saltNull => if saltNull then 2 else 3
  | .key_derivation_get_capacity => 1
  | .key_derivation_output_bytes => 1
  | .key_derivation_input_key => 1
  | .key_derivation_abort => 1
  | .key_derivation_key_agreement => 2
  | .generate_random => 1
  | .generate_key => 2
  | .mac_compute => 2
  | .mac_verify => 3
  | .cipher_encrypt => 2
  | .cipher_decrypt => 2
  | .raw_key_agreement => 2
  | .key_derivation_setup => 1
  | .key_derivation_set_capacity => 1
  | .key_derivation_input_bytes => 2
  | .key_derivation_output_key => 2

/-- Number of out-descriptors passed to `psa_call` by each function, read
off the `out_vec[]` array literal (0 for the `API_DISPATCH_NO_OUTVEC`
calls) and the `out_len--` trimming of the `TFM_PSA_API` build. -/
def CryptoCall.outCount : CryptoCall → Nat
  | .open_key => 1
  | .close_key => 0
  | .import_key => 1
  | .destroy_key => 0
  | .get_key_attributes => 1
  | .reset_key_attributes => 1
  | .export_key => 1
  | .export_public_key => 1
  | .purge_key => 0
  | .copy_key => 1
  | .cipher_generate_iv => 2
  | .cipher_set_iv => 1
  | .cipher_encrypt_setup => 1
  | .cipher_decrypt_setup => 1
  | .cipher_update => 2
  | .cipher_abort => 1
  | .cipher_finish => 2
  | .hash_setup => 1
  | .hash_update => 1
  | .hash_finish => 2
  | .hash_verify => 1
  | .hash_abort => 1
  | .hash_clone => 1
  | .hash_compute => 1
  | .hash_compare => 0
  | .mac_sign_setup => 1
  | .mac_verify_setup => 1
  | .mac_update => 1
  | .mac_sign_finish => 2
  | .mac_verify_finish => 1
  | .mac_abort => 1
  | .aead_encrypt _ => 1
  | .aead_decrypt _ => 1
  | .aead_encrypt_setup => 1
  | .aead_decrypt_setup => 1
  | .aead_generate_nonce => 2
  | .aead_set_nonce => 1
  | .aead_set_lengths => 1
  | .aead_update_ad _ => 1
  | .aead_update _ => 2
  | .aead_finish ctElided => if ctElided then 2 else 3
  | .aead_verify ptElided => if ptElided then 1 else 2
  | .aead_abort => 1
  | .sign_message => 1
  | .verify_message => 0
  | .sign_hash => 1
  | .verify_hash => 0
  | .asymmetric_encrypt _ => 1
  | .asymmetric_decrypt _ => 1
  | .key_derivation_get_capacity => 2
  | .key_derivation_output_bytes => 1
  | .key_derivation_input_key => 1
  | .key_derivation_abort => 1
  | .key_derivation_key_agreement => 1
  | .generate_random => 1
  | .generate_key => 1
  | .mac_compute => 1
  | .mac_verify => 0
  | .cipher_encrypt => 1
  | .cipher_decrypt => 1
  | .raw_key_agreement => 1
  | .key_derivation_setup => 1
  | .key_derivation_set_capacity => 1
  | .key_derivation_input_bytes => 1
  | .key_derivation_output_key => 2

/-- One call of a streaming family against a single operation-state object,
with the per-call arguments other than the operation itself. -/
inductive StreamStep where
  | cipherEncryptSetup (key alg : Nat)
  | cipherDecryptSetup (key alg : Nat)
  | cipherGenIv (ivNull : Bool) (ivSize : Nat)
  | cipherSetIv (iv : Option (List Nat)) (ivLen : Nat)
  | cipherUpdate (input : Option (List Nat)) (inLen : Nat)
      (outNull : Bool) (outSize : Nat)
  | cipherFinish (outNull : Bool) (outSize : Nat)
  | cipherAbort
  | hashSetup (alg : Nat)
  | hashUpdate (input : Option (List Nat)) (inLen : Nat)
  | hashFinish (hashNull : Bool) (hashSize : Nat)
  | hashVerify (hash : Option (List Nat)) (hashLen : Nat)
  | hashAbort
  | aeadUpdateAd (input : Option (List Nat)) (inLen : Nat)
  | aeadFinish (ctNull : Bool) (ctSize : Nat) (ctLenNull : Bool)
      (tagNull : Bool) (tagSize : Nat)
  | aeadVerify (ptNull : Bool) (ptSize : Nat) (ptLenNull : Bool)
      (tag : Option (List Nat)) (tagLen : Nat)
  | macSignSetup (key alg : Nat)
  | macVerifySetup (key alg : Nat)
  | macUpdate (input : Option (List Nat)) (inLen : Nat)
  | macSignFinish (macNull : Bool) (macSize : Nat)
  | macVerifyFinish (mac : Option (List Nat)) (macLen : Nat)
  | macAbort
  | aeadEncryptSetup (key alg : Nat)
  | aeadDecryptSetup (key alg : Nat)
  | aeadGenerateNonce (nonceNull : Bool) (nonceSize : Nat)
  | aeadSetNonce (nonce : Option (List Nat)) (nonceLen : Nat)
  | aeadSetLengths (adLen ptLen : Nat)
  | aeadUpdate (input : Option (List Nat)) (inLen : Nat) (outNull : Bool)
      (outSize : Nat)
  | aeadAbort
  | kdSetup (alg : Nat)
  | kdGetCapacity (capNull : Bool)
  | kdSetCapacity (capacity : Nat)
  | kdInputBytes (stp : Nat) (data : Option (List Nat)) (dataLen : Nat)
  | kdInputKey (stp key : Nat)
  | kdKeyAgreement (stp key : Nat) (peer : Option (List Nat))
      (peerLen : Nat)
  | kdOutputBytes (outNull : Bool) (outLen : Nat)
  | kdOutputKey (keyIdNull : Bool)
  | kdAbort

/-- Execute one streaming call against an operation whose handle field
currently holds `h`, by delegating to the corresponding embedded
function. -/
def stepCall (h : Nat) : StreamStep → ChanResp → CallOut
  | .cipherEncryptSetup key alg, r => psa_cipher_encrypt_setup h key alg r
  | .cipherDecryptSetup key alg, r => psa_cipher_decrypt_setup h key alg r
  | .cipherGenIv ivNull ivSize, r => psa_cipher_generate_iv h ivNull ivSize r
  | .cipherSetIv iv ivLen, r => psa_cipher_set_iv h iv ivLen r
  | .cipherUpdate input inLen outNull outSize, r =>
      psa_cipher_update h input inLen outNull outSize r
  | .cipherFinish outNull outSize, r => psa_cipher_finish h outNull outSize r
  | .cipherAbort, r => psa_cipher_abort h r
  | .hashSetup alg, r => psa_hash_setup h alg r
  | .hashUpdate input inLen, r => psa_hash_update h input inLen r
  | .hashFinish hashNull hashSize, r => psa_hash_finish h hashNull hashSize r
  | .hashVerify hash hashLen, r => psa_hash_verify h hash hashLen r
  | .hashAbort, r => psa_hash_abort h r
  | .aeadUpdateAd input inLen, r => psa_aead_update_ad h input inLen r
  | .aeadFinish ctNull ctSize ctLenNull tagNull tagSize, r =>
      psa_aead_finish h ctNull ctSize ctLenNull tagNull tagSize r
  | .aeadVerify ptNull ptSize ptLenNull tag tagLen, r =>
      psa_aead_verify h ptNull ptSize ptLenNull tag tagLen r
  | .macSignSetup key alg, r => psa_mac_sign_setup h key alg r
  | .macVerifySetup key alg, r => psa_mac_verify_setup h key alg r
  | .macUpdate input inLen, r => psa_mac_update h input inLen r
  | .macSignFinish macNull macSize, r =>
      psa_mac_sign_finish h macNull macSize r
  | .macVerifyFinish mac macLen, r => psa_mac_verify_finish h mac macLen r
  | .macAbort, r => psa_mac_abort h r
  | .aeadEncryptSetup key alg, r => psa_aead_encrypt_setup h key alg r
  | .aeadDecryptSetup key alg, r => psa_aead_decrypt_setup h key alg r
  | .aeadGenerateNonce nonceNull nonceSize, r =>
      psa_aead_generate_nonce h nonceNull nonceSize r
  | .aeadSetNonce nonce nonceLen, r => psa_aead_set_nonce h nonce nonceLen r
  | .aeadSetLengths adLen ptLen, r => psa_aead_set_lengths h adLen ptLen r
  | .aeadUpdate input inLen outNull outSize, r =>
      psa_aead_update h input inLen outNull outSize r
  | .aeadAbort, r => psa_aead_abort h r
  | .kdSetup alg, r => psa_key_derivation_setup h alg r
  | .kdGetCapacity capNull, r => psa_key_derivation_get_capacity h capNull r
  | .kdSetCapacity capacity, r =>
      psa_key_derivation_set_capacity h capacity r
  | .kdInputBytes stp data dataLen, r =>
      psa_key_derivation_input_bytes h stp data dataLen r
  | .kdInputKey stp key, r => psa_key_derivation_input_key h stp key r
  | .kdKeyAgreement stp key peer peerLen, r =>
      psa_key_derivation_key_agreement h stp key peer peerLen r
  | .kdOutputBytes outNull outLen, r =>
      psa_key_derivation_output_bytes h outNull outLen r
  | .kdOutputKey keyIdNull, r => psa_key_derivation_output_key h keyIdNull r
  | .kdAbort, r => psa_key_derivation_abort h r

/-- Run a sequence of streaming calls against one operation-state object,
threading the handle exactly as the caller does: each call reads the
operation's current handle field and the field afterwards holds whatever
the call left in it. -/
def runStream (h : Nat) : List (StreamStep × ChanResp) → List CallOut
  | [] => []
  | (s, r) :: rest =>
    let c := stepCall h s r
    c :: runStream (c.handleAfter.getD h) rest

/-- C8: `psa_generate_random` called with `output_size` equal to 0 returns
`PSA_SUCCESS` immediately and performs zero dispatch calls. -/
theorem generate_random_zero_size_no_dispatch :
    ∀ (outNull : Bool) (r : ChanResp),
      (psa_generate_random outNull 0 r).status = PSA_SUCCESS ∧
      (psa_generate_random outNull 0 r).dispatches = [] := by
  intro outNull r
  exact ⟨rfl, rfl⟩

/-- C7: `psa_hash_clone` called with a destination operation whose handle
is already non-zero returns `PSA_ERROR_BAD_STATE`, performs zero dispatch
calls, and leaves both operation objects unchanged. -/
theorem hash_clone_bound_target_bad_state :
    ∀ (srcH t : Nat) (r : ChanResp), t ≠ 0 →
      (psa_hash_clone srcH (some t) r).status = PSA_ERROR_BAD_STATE ∧
      (psa_hash_clone srcH (some t) r).dispatches = [] ∧
      (psa_hash_clone srcH (some t) r).targetAfter = some t ∧
      (psa_hash_clone srcH (some t) r).sourceHandleAfter = srcH := by
  intro srcH t r ht
  simp [psa_hash_clone, ht]

/-- Witness for C7 at source handle 7, destination handle 5. -/
theorem hash_clone_bound_target_bad_state_witness :
    (5 : Nat) ≠ 0 ∧
      ((psa_hash_clone 7 (some 5) ⟨0, [], 9⟩).status = PSA_ERROR_BAD_STATE ∧
       (psa_hash_clone 7 (some 5) ⟨0, [], 9⟩).dispatches = [] ∧
       (psa_hash_clone 7 (some 5) ⟨0, [], 9⟩).targetAfter = some 5 ∧
       (psa_hash_clone 7 (some 5) ⟨0, [], 9⟩).sourceHandleAfter = 7) :=
  ⟨by decide, hash_clone_bound_target_bad_state 7 5 ⟨0, [], 9⟩ (by decide)⟩

/-- C1 counterexample: `psa_hash_finish` dispatched against a channel that
returns failure status -132 and leaves 5 in the hash out-descriptor still
stores 5 into `*hash_length`; the out-parameter is neither zeroed nor left
untouched on failure, refuting the claim as stated. -/
theorem failure_length_copy_counterexample :
    ¬ ((psa_hash_finish 3 false 7 ⟨-132, [0, 5], 9⟩).status ≠ PSA_SUCCESS →
       (psa_hash_finish 3 false 7 ⟨-132, [0, 5], 9⟩).lenWrite = some 0 ∨
       (psa_hash_finish 3 false 7 ⟨-132, [0, 5], 9⟩).lenWrite = none) := by
  decide

/-- C1 amended: for `psa_hash_finish`, `psa_export_key` and
`psa_cipher_update`, the descriptor length read back from the out-vector is
copied into the caller's `*_length` out-parameter unconditionally, for every
status the dispatched call returns, failure included. -/
theorem failure_length_copied_unconditionally :
    (∀ (h : Nat) (hashNull : Bool) (sz : Nat) (r : ChanResp),
       (psa_hash_finish h hashNull sz r).lenWrite = some (r.lenAt 1 sz)) ∧
    (∀ (k : Nat) (dataNull : Bool) (sz : Nat) (r : ChanResp),
       (psa_export_key k dataNull sz r).lenWrite = some (r.lenAt 0 sz)) ∧
    (∀ (h : Nat) (input : Option (List Nat)) (il : Nat) (outNull : Bool)
       (sz : Nat) (r : ChanResp),
       (psa_cipher_update h input il outNull sz r).lenWrite
         = some (r.lenAt 1 sz)) :=
  ⟨fun _ _ _ _ => rfl, fun _ _ _ _ => rfl, fun _ _ _ _ _ _ => rfl⟩

/-- C6: in `psa_aead_encrypt` and `psa_aead_decrypt`, a nonce length
exceeding `TFM_CRYPTO_MAX_NONCE_LENGTH` is rejected locally with
`PSA_ERROR_INVALID_ARGUMENT`: zero dispatch calls are performed (so no
truncated nonce can reach the channel) and the function returns before any
output store. -/
theorem oversize_nonce_rejected_locally :
    (∀ (k a : Nat) (n : Option (List Nat)) (nl : Nat)
       (ad : Option (List Nat)) (adl : Nat) (pt : Option (List Nat))
       (ptl : Nat) (ctN : Bool) (cts : Nat) (r : ChanResp),
       TFM_CRYPTO_MAX_NONCE_LENGTH < nl →
       (psa_aead_encrypt k a n nl ad adl pt ptl ctN cts r).status
          = PSA_ERROR_INVALID_ARGUMENT ∧
       (psa_aead_encrypt k a n nl ad adl pt ptl ctN cts r).dispatches = [] ∧
       (psa_aead_encrypt k a n nl ad adl pt ptl ctN cts r).lenWrite = none) ∧
    (∀ (k a : Nat) (n : Option (List Nat)) (nl : Nat)
       (ad : Option (List Nat)) (adl : Nat) (ct : Option (List Nat))
       (ctl : Nat) (ptN : Bool) (pts : Nat) (r : ChanResp),
       TFM_CRYPTO_MAX_NONCE_LENGTH < nl →
       (psa_aead_decrypt k a n nl ad adl ct ctl ptN pts r).status
          = PSA_ERROR_INVALID_ARGUMENT ∧
       (psa_aead_decrypt k a n nl ad adl ct ctl ptN pts r).dispatches = [] ∧
       (psa_aead_decrypt k a n nl ad adl ct ctl ptN pts r).lenWrite = none) := by
  constructor
  · intro k a n nl ad adl pt ptl ctN cts r hnl
    by_cases h1 : ad = none ∧ adl ≠ 0
    · simp [psa_aead_encrypt, h1]
    · simp [psa_aead_encrypt, h1, hnl]
  · intro k a n nl ad adl ct ctl ptN pts r hnl
    by_cases h1 : ad = none ∧ adl ≠ 0
    · simp [psa_aead_decrypt, h1]
    · simp [psa_aead_decrypt, h1, hnl]

/-- Witness for C6 with a 17-byte nonce length (one over the maximum). -/
theorem oversize_nonce_rejected_locally_witness :
    TFM_CRYPTO_MAX_NONCE_LENGTH < 17 ∧
      ((psa_aead_encrypt 1 2 (some [3]) 17 none 0 none 0 false 0
          ⟨0, [], 0⟩).status = PSA_ERROR_INVALID_ARGUMENT ∧
       (psa_aead_encrypt 1 2 (some [3]) 17 none 0 none 0 false 0
          ⟨0, [], 0⟩).dispatches = [] ∧
       (psa_aead_encrypt 1 2 (some [3]) 17 none 0 none 0 false 0
          ⟨0, [], 0⟩).lenWrite = none) :=
  ⟨by decide, oversize_nonce_rejected_locally.1 1 2 (some [3]) 17 none 0
      none 0 false 0 ⟨0, [], 0⟩ (by decide)⟩

/-- C9: in `psa_aead_encrypt` and `psa_aead_decrypt`, a NULL nonce pointer
with a non-zero nonce length not exceeding the inline maximum is not
rejected: the call dispatches once, passes the channel status through, and
the envelope goes out with the inline nonce field untouched
(`nonce_length` 0, nonce array all zero) — unlike the additional-data
parameter. -/
theorem null_nonce_length_ignored :
    (∀ (k a nl : Nat) (adb : List Nat) (adl : Nat) (pt : Option (List Nat))
       (ptl : Nat) (ctN : Bool) (cts : Nat) (r : ChanResp),
       nl ≤ TFM_CRYPTO_MAX_NONCE_LENGTH → nl ≠ 0 →
       (psa_aead_encrypt k a none nl (some adb) adl pt ptl ctN cts r).status
          = r.status ∧
       (psa_aead_encrypt k a none nl (some adb) adl pt ptl ctN cts
          r).dispatches.length = 1 ∧
       (psa_aead_encrypt k a none nl (some adb) adl pt ptl ctN cts
          r).sentEnvelope
          = some { srv_id := .aead_encrypt_sid, key_id := k, alg := a }) ∧
    (∀ (k a nl : Nat) (adb : List Nat) (adl : Nat) (ct : Option (List Nat))
       (ctl : Nat) (ptN : Bool) (pts : Nat) (r : ChanResp),
       nl ≤ TFM_CRYPTO_MAX_NONCE_LENGTH → nl ≠ 0 →
       (psa_aead_decrypt k a none nl (some adb) adl ct ctl ptN pts r).status
          = r.status ∧
       (psa_aead_decrypt k a none nl (some adb) adl ct ctl ptN pts
          r).dispatches.length = 1 ∧
       (psa_aead_decrypt k a none nl (some adb) adl ct ctl ptN pts
          r).sentEnvelope
          = some { srv_id := .aead_decrypt_sid, key_id := k, alg := a }) := by
  constructor
  · intro k a nl adb adl pt ptl ctN cts r hnl _
    have hnl' : ¬ (TFM_CRYPTO_MAX_NONCE_LENGTH < nl) := Nat.not_lt.mpr hnl
    simp [psa_aead_encrypt, hnl', CallOut.sentEnvelope, aeadEnvelope]
  · intro k a nl adb adl ct ctl ptN pts r hnl _
    have hnl' : ¬ (TFM_CRYPTO_MAX_NONCE_LENGTH < nl) := Nat.not_lt.mpr hnl
    simp [psa_aead_decrypt, hnl', CallOut.sentEnvelope, aeadEnvelope]

/-- Witness for C9: NULL nonce with length 12 dispatches and sends
nonce_length 0. -/
theorem null_nonce_length_ignored_witness :
    (12 ≤ TFM_CRYPTO_MAX_NONCE_LENGTH ∧ (12 : Nat) ≠ 0) ∧
      ((psa_aead_encrypt 1 2 none 12 (some [7]) 1 (some [8]) 1 false 4
          ⟨3, [4], 0⟩).status = (3 : Int) ∧
       (psa_aead_encrypt 1 2 none 12 (some [7]) 1 (some [8]) 1 false 4
          ⟨3, [4], 0⟩).dispatches.length = 1 ∧
       (psa_aead_encrypt 1 2 none 12 (some [7]) 1 (some [8]) 1 false 4
          ⟨3, [4], 0⟩).sentEnvelope
          = some { srv_id := .aead_encrypt_sid, key_id := 1, alg := 2 }) :=
  ⟨⟨by decide, by decide⟩,
   null_nonce_length_ignored.1 1 2 12 [7] 1 (some [8]) 1 false 4
     ⟨3, [4], 0⟩ (by decide) (by decide)⟩

/-- C2: every operation with an optional buffer parameter (additional data
of `psa_aead_encrypt` / `psa_aead_decrypt`, input of `psa_aead_update_ad`,
salt of `psa_asymmetric_encrypt` / `psa_asymmetric_decrypt`) returns
`PSA_ERROR_INVALID_ARGUMENT` locally and performs zero dispatch calls when
that parameter is a NULL reference with a non-zero length; the rejection
precedes any descriptor trimming, so no trimmed dispatch is produced
either. -/
theorem null_optional_nonzero_length_rejected :
    (∀ (k a : Nat) (n : Option (List Nat)) (nl adl : Nat)
       (pt : Option (List Nat)) (ptl : Nat) (ctN : Bool) (cts : Nat)
       (r : ChanResp), adl ≠ 0 →
       (psa_aead_encrypt k a n nl none adl pt ptl ctN cts r).status
          = PSA_ERROR_INVALID_ARGUMENT ∧
       (psa_aead_encrypt k a n nl none adl pt ptl ctN cts r).dispatches
          = []) ∧
    (∀ (k a : Nat) (n : Option (List Nat)) (nl adl : Nat)
       (ct : Option (List Nat)) (ctl : Nat) (ptN : Bool) (pts : Nat)
       (r : ChanResp), adl ≠ 0 →
       (psa_aead_decrypt k a n nl none adl ct ctl ptN pts r).status
          = PSA_ERROR_INVALID_ARGUMENT ∧
       (psa_aead_decrypt k a n nl none adl ct ctl ptN pts r).dispatches
          = []) ∧
    (∀ (h il : Nat) (r : ChanResp), il ≠ 0 →
       (psa_aead_update_ad h none il r).status
          = PSA_ERROR_INVALID_ARGUMENT ∧
       (psa_aead_update_ad h none il r).dispatches = []) ∧
    (∀ (k a : Nat) (inp : Option (List Nat)) (il sl : Nat) (outN : Bool)
       (sz : Nat) (r : ChanResp), sl ≠ 0 →
       (psa_asymmetric_encrypt k a inp il none sl outN sz r).status
          = PSA_ERROR_INVALID_ARGUMENT ∧
       (psa_asymmetric_encrypt k a inp il none sl outN sz r).dispatches
          = []) ∧
    (∀ (k a : Nat) (inp : Option (List Nat)) (il sl : Nat) (outN : Bool)
       (sz : Nat) (r : ChanResp), sl ≠ 0 →
       (psa_asymmetric_decrypt k a inp il none sl outN sz r).status
          = PSA_ERROR_INVALID_ARGUMENT ∧
       (psa_asymmetric_decrypt k a inp il none sl outN sz r).dispatches
          = []) := by
  refine ⟨?_, ?_, ?_, ?_, ?_⟩
  · intro k a n nl adl pt ptl ctN cts r hl
    simp [psa_aead_encrypt, hl]
  · intro k a n nl adl ct ctl ptN pts r hl
    simp [psa_aead_decrypt, hl]
  · intro h il r hl
    simp [psa_aead_update_ad, hl]
  · intro k a inp il sl outN sz r hl
    simp [psa_asymmetric_encrypt, hl]
  · intro k a inp il sl outN sz r hl
    simp [psa_asymmetric_decrypt, hl]

/-- Witness for C2: AEAD encrypt with NULL additional data of length 3. -/
theorem null_optional_nonzero_length_rejected_witness :
    (3 : Nat) ≠ 0 ∧
      ((psa_aead_encrypt 1 2 none 0 none 3 none 0 false 0 ⟨0, [], 0⟩).status
          = PSA_ERROR_INVALID_ARGUMENT ∧
       (psa_aead_encrypt 1 2 none 0 none 3 none 0 false 0
          ⟨0, [], 0⟩).dispatches = []) :=
  ⟨by decide, null_optional_nonzero_length_rejected.1 1 2 none 0 3 none 0
      false 0 ⟨0, [], 0⟩ (by decide)⟩

/-- C3: for every modelled operation with an optional descriptor, omitting
that parameter (NULL reference, zero stated length/capacity) yields a
dispatch whose descriptor array is exactly the array of the
parameter-present call with its last element removed: one descriptor fewer,
removed at the tail of its vector group, every other descriptor at an
unchanged index. -/
theorem optional_trimmed_from_tail :
    (∀ (k a : Nat) (n : Option (List Nat)) (nl : Nat) (ad : List Nat)
       (adl : Nat) (pt : Option (List Nat)) (ptl : Nat) (ctN : Bool)
       (cts : Nat) (r : ChanResp), nl ≤ TFM_CRYPTO_MAX_NONCE_LENGTH →
       (psa_aead_encrypt k a n nl (some ad) adl pt ptl ctN cts
          r).dispatches.length = 1 ∧
       (psa_aead_encrypt k a n nl none 0 pt ptl ctN cts
          r).dispatches.length = 1 ∧
       (psa_aead_encrypt k a n nl (some ad) adl pt ptl ctN cts
          r).dispatchedIn
          = (psa_aead_encrypt k a n nl none 0 pt ptl ctN cts r).dispatchedIn
              ++ [⟨Ref.inBuf (some ad), adl⟩] ∧
       (psa_aead_encrypt k a n nl (some ad) adl pt ptl ctN cts
          r).dispatchedOut
          = (psa_aead_encrypt k a n nl none 0 pt ptl ctN cts
              r).dispatchedOut) ∧
    (∀ (k a : Nat) (n : Option (List Nat)) (nl : Nat) (ad : List Nat)
       (adl : Nat) (ct : Option (List Nat)) (ctl : Nat) (ptN : Bool)
       (pts : Nat) (r : ChanResp), nl ≤ TFM_CRYPTO_MAX_NONCE_LENGTH →
       (psa_aead_decrypt k a n nl (some ad) adl ct ctl ptN pts
          r).dispatches.length = 1 ∧
       (psa_aead_decrypt k a n nl none 0 ct ctl ptN pts
          r).dispatches.length = 1 ∧
       (psa_aead_decrypt k a n nl (some ad) adl ct ctl ptN pts
          r).dispatchedIn
          = (psa_aead_decrypt k a n nl none 0 ct ctl ptN pts r).dispatchedIn
              ++ [⟨Ref.inBuf (some ad), adl⟩] ∧
       (psa_aead_decrypt k a n nl (some ad) adl ct ctl ptN pts
          r).dispatchedOut
          = (psa_aead_decrypt k a n nl none 0 ct ctl ptN pts
              r).dispatchedOut) ∧
    (∀ (h : Nat) (inb : List Nat) (il : Nat) (r : ChanResp),
       (psa_aead_update_ad h (some inb) il r).dispatches.length = 1 ∧
       (psa_aead_update_ad h none 0 r).dispatches.length = 1 ∧
       (psa_aead_update_ad h (some inb) il r).dispatchedIn
          = (psa_aead_update_ad h none 0 r).dispatchedIn
              ++ [⟨Ref.inBuf (some inb), il⟩] ∧
       (psa_aead_update_ad h (some inb) il r).dispatchedOut
          = (psa_aead_update_ad h none 0 r).dispatchedOut) ∧
    (∀ (k a : Nat) (inp : Option (List Nat)) (il : Nat) (sb : List Nat)
       (sl : Nat) (outN : Bool) (sz : Nat) (r : ChanResp),
       (psa_asymmetric_encrypt k a inp il (some sb) sl outN sz
          r).dispatches.length = 1 ∧
       (psa_asymmetric_encrypt k a inp il none 0 outN sz
          r).dispatches.length = 1 ∧
       (psa_asymmetric_encrypt k a inp il (some sb) sl outN sz
          r).dispatchedIn
          = (psa_asymmetric_encrypt k a inp il none 0 outN sz
              r).dispatchedIn ++ [⟨Ref.inBuf (some sb), sl⟩] ∧
       (psa_asymmetric_encrypt k a inp il (some sb) sl outN sz
          r).dispatchedOut
          = (psa_asymmetric_encrypt k a inp il none 0 outN sz
              r).dispatchedOut) ∧
    (∀ (k a : Nat) (inp : Option (List Nat)) (il : Nat) (sb : List Nat)
       (sl : Nat) (outN : Bool) (sz : Nat) (r : ChanResp),
       (psa_asymmetric_decrypt k a inp il (some sb) sl outN sz
          r).dispatches.length = 1 ∧
       (psa_asymmetric_decrypt k a inp il none 0 outN sz
          r).dispatches.length = 1 ∧
       (psa_asymmetric_decrypt k a inp il (some sb) sl outN sz
          r).dispatchedIn
          = (psa_asymmetric_decrypt k a inp il none 0 outN sz
              r).dispatchedIn ++ [⟨Ref.inBuf (some sb), sl⟩] ∧
       (psa_asymmetric_decrypt k a inp il (some sb) sl outN sz
          r).dispatchedOut
          = (psa_asymmetric_decrypt k a inp il none 0 outN sz
              r).dispatchedOut) ∧
    (∀ (h : Nat) (cts : Nat) (ctLenN tagN : Bool) (tagSz : Nat)
       (r : ChanResp), cts ≠ 0 →
       (psa_aead_finish h false cts false tagN tagSz
          r).dispatches.length = 1 ∧
       (psa_aead_finish h true 0 ctLenN tagN tagSz r).dispatches.length = 1 ∧
       (psa_aead_finish h false cts false tagN tagSz r).dispatchedOut
          = (psa_aead_finish h true 0 ctLenN tagN tagSz r).dispatchedOut
              ++ [⟨Ref.outBuf false, cts⟩] ∧
       (psa_aead_finish h false cts false tagN tagSz r).dispatchedIn
          = (psa_aead_finish h true 0 ctLenN tagN tagSz r).dispatchedIn) ∧
    (∀ (h : Nat) (pts : Nat) (ptLenN : Bool) (tag : Option (List Nat))
       (tl : Nat) (r : ChanResp), pts ≠ 0 →
       (psa_aead_verify h false pts false tag tl r).dispatches.length = 1 ∧
       (psa_aead_verify h true 0 ptLenN tag tl r).dispatches.length = 1 ∧
       (psa_aead_verify h false pts false tag tl r).dispatchedOut
          = (psa_aead_verify h true 0 ptLenN tag tl r).dispatchedOut
              ++ [⟨Ref.outBuf false, pts⟩] ∧
       (psa_aead_verify h false pts false tag tl r).dispatchedIn
          = (psa_aead_verify h true 0 ptLenN tag tl r).dispatchedIn) := by
  refine ⟨?_, ?_, ?_, ?_, ?_, ?_, ?_⟩
  · intro k a n nl ad adl pt ptl ctN cts r hnl
    have hnl' : ¬ (TFM_CRYPTO_MAX_NONCE_LENGTH < nl) := Nat.not_lt.mpr hnl
    simp [psa_aead_encrypt, hnl', CallOut.dispatchedIn, CallOut.dispatchedOut]
  · intro k a n nl ad adl ct ctl ptN pts r hnl
    have hnl' : ¬ (TFM_CRYPTO_MAX_NONCE_LENGTH < nl) := Nat.not_lt.mpr hnl
    simp [psa_aead_decrypt, hnl', CallOut.dispatchedIn, CallOut.dispatchedOut]
  · intro h inb il r
    simp [psa_aead_update_ad, CallOut.dispatchedIn, CallOut.dispatchedOut]
  · intro k a inp il sb sl outN sz r
    simp [psa_asymmetric_encrypt, CallOut.dispatchedIn,
          CallOut.dispatchedOut]
  · intro k a inp il sb sl outN sz r
    simp [psa_asymmetric_decrypt, CallOut.dispatchedIn,
          CallOut.dispatchedOut]
  · intro h cts ctLenN tagN tagSz r hcts
    simp [psa_aead_finish, hcts, CallOut.dispatchedIn, CallOut.dispatchedOut]
  · intro h pts ptLenN tag tl r hpts
    simp [psa_aead_verify, hpts, CallOut.dispatchedIn, CallOut.dispatchedOut]

/-- Witness for C3: AEAD encrypt with and without additional data. -/
theorem optional_trimmed_from_tail_witness :
    (0 : Nat) ≤ TFM_CRYPTO_MAX_NONCE_LENGTH ∧
      ((psa_aead_encrypt 1 2 none 0 (some [9]) 1 (some [8]) 1 false 4
          ⟨0, [4], 0⟩).dispatches.length = 1 ∧
       (psa_aead_encrypt 1 2 none 0 none 0 (some [8]) 1 false 4
          ⟨0, [4], 0⟩).dispatches.length = 1 ∧
       (psa_aead_encrypt 1 2 none 0 (some [9]) 1 (some [8]) 1 false 4
          ⟨0, [4], 0⟩).dispatchedIn
          = (psa_aead_encrypt 1 2 none 0 none 0 (some [8]) 1 false 4
              ⟨0, [4], 0⟩).dispatchedIn ++ [⟨Ref.inBuf (some [9]), 1⟩] ∧
       (psa_aead_encrypt 1 2 none 0 (some [9]) 1 (some [8]) 1 false 4
          ⟨0, [4], 0⟩).dispatchedOut
          = (psa_aead_encrypt 1 2 none 0 none 0 (some [8]) 1 false 4
              ⟨0, [4], 0⟩).dispatchedOut) :=
  ⟨by decide, optional_trimmed_from_tail.1 1 2 none 0 [9] 1 (some [8]) 1
      false 4 ⟨0, [4], 0⟩ (by decide)⟩

/-- C10: `psa_aead_finish` elides the optional ciphertext out-descriptor
whenever the ciphertext capacity is 0 (NULL or non-NULL reference alike:
the reachable null-reference elisions are exactly the capacity-0 ones,
since a NULL reference with non-zero capacity is rejected earlier), writing
0 to `*ciphertext_length` in every elided case; when the descriptor is kept
(non-NULL reference, non-zero capacity) a NULL `ciphertext_length` pointer
is rejected with `PSA_ERROR_INVALID_ARGUMENT` before any dispatch.
`psa_aead_verify` behaves analogously for its plaintext output. -/
theorem aead_finish_verify_optional_output :
    (∀ (h : Nat) (ctN ctLenN tagN : Bool) (tagSz : Nat) (r : ChanResp),
       (psa_aead_finish h ctN 0 ctLenN tagN tagSz r).dispatches.length
          = 1 ∧
       (psa_aead_finish h ctN 0 ctLenN tagN tagSz r).dispatchedOut.length
          = 2 ∧
       (psa_aead_finish h ctN 0 ctLenN tagN tagSz r).lenWrite = some 0) ∧
    (∀ (h cts : Nat) (tagN : Bool) (tagSz : Nat) (r : ChanResp), cts ≠ 0 →
       (psa_aead_finish h false cts true tagN tagSz r).status
          = PSA_ERROR_INVALID_ARGUMENT ∧
       (psa_aead_finish h false cts true tagN tagSz r).dispatches = [] ∧
       (psa_aead_finish h false cts true tagN tagSz r).lenWrite = none) ∧
    (∀ (h : Nat) (ptN ptLenN : Bool) (tag : Option (List Nat)) (tl : Nat)
       (r : ChanResp),
       (psa_aead_verify h ptN 0 ptLenN tag tl r).dispatches.length = 1 ∧
       (psa_aead_verify h ptN 0 ptLenN tag tl r).dispatchedOut.length = 1 ∧
       (psa_aead_verify h ptN 0 ptLenN tag tl r).lenWrite = some 0) ∧
    (∀ (h pts : Nat) (tag : Option (List Nat)) (tl : Nat) (r : ChanResp),
       pts ≠ 0 →
       (psa_aead_verify h false pts true tag tl r).status
          = PSA_ERROR_INVALID_ARGUMENT ∧
       (psa_aead_verify h false pts true tag tl r).dispatches = [] ∧
       (psa_aead_verify h false pts true tag tl r).lenWrite = none) := by
  refine ⟨?_, ?_, ?_, ?_⟩
  · intro h ctN ctLenN tagN tagSz r
    simp [psa_aead_finish, CallOut.dispatchedOut]
  · intro h cts tagN tagSz r hcts
    simp [psa_aead_finish, hcts]
  · intro h ptN ptLenN tag tl r
    simp [psa_aead_verify, CallOut.dispatchedOut]
  · intro h pts tag tl r hpts
    simp [psa_aead_verify, hpts]

/-- Witness for C10: elided ciphertext (NULL, capacity 0) and kept
ciphertext with NULL length pointer. -/
theorem aead_finish_verify_optional_output_witness :
    (4 : Nat) ≠ 0 ∧
      ((psa_aead_finish 3 false 4 true false 16 ⟨0, [], 0⟩).status
          = PSA_ERROR_INVALID_ARGUMENT ∧
       (psa_aead_finish 3 false 4 true false 16 ⟨0, [], 0⟩).dispatches
          = [] ∧
       (psa_aead_finish 3 false 4 true false 16 ⟨0, [], 0⟩).lenWrite
          = none) :=
  ⟨by decide,
   aead_finish_verify_optional_output.2.1 3 4 false 16 ⟨0, [], 0⟩
     (by decide)⟩

/-- Every dispatch of a trace passes at most 4 descriptors in total. -/
def dispatchBounded (c : CallOut) : Prop :=
  ∀ d ∈ c.dispatches, d.inVec.length + d.outVec.length ≤ 4

/-- C4: for every operation of this layer and every caller-argument
combination that reaches a dispatch, the number of in-descriptors plus the
number of out-descriptors passed to the call primitive is at most 4 — both
over the per-function descriptor-count table `CryptoCall.inCount` /
`CryptoCall.outCount` covering every dispatch site of the file, and over
the fully modelled variable-shape operations. -/
theorem descriptor_total_at_most_four :
    (∀ c : CryptoCall, c.inCount + c.outCount ≤ 4) ∧
    (∀ (k a : Nat) (n : Option (List Nat)) (nl : Nat)
       (ad : Option (List Nat)) (adl : Nat) (pt : Option (List Nat))
       (ptl : Nat) (ctN : Bool) (cts : Nat) (r : ChanResp),
       dispatchBounded (psa_aead_encrypt k a n nl ad adl pt ptl ctN cts r)) ∧
    (∀ (k a : Nat) (n : Option (List Nat)) (nl : Nat)
       (ad : Option (List Nat)) (adl : Nat) (ct : Option (List Nat))
       (ctl : Nat) (ptN : Bool) (pts : Nat) (r : ChanResp),
       dispatchBounded (psa_aead_decrypt k a n nl ad adl ct ctl ptN pts r)) ∧
    (∀ (h : Nat) (inp : Option (List Nat)) (il : Nat) (r : ChanResp),
       dispatchBounded (psa_aead_update_ad h inp il r)) ∧
    (∀ (h : Nat) (ctN : Bool) (cts : Nat) (ctLenN tagN : Bool)
       (tagSz : Nat) (r : ChanResp),
       dispatchBounded (psa_aead_finish h ctN cts ctLenN tagN tagSz r)) ∧
    (∀ (h : Nat) (ptN : Bool) (pts : Nat) (ptLenN : Bool)
       (tag : Option (List Nat)) (tl : Nat) (r : ChanResp),
       dispatchBounded (psa_aead_verify h ptN pts ptLenN tag tl r)) ∧
    (∀ (k a : Nat) (inp : Option (List Nat)) (il : Nat)
       (salt : Option (List Nat)) (sl : Nat) (outN : Bool) (sz : Nat)
       (r : ChanResp),
       dispatchBounded (psa_asymmetric_encrypt k a inp il salt sl outN
         sz r)) ∧
    (∀ (k a : Nat) (inp : Option (List Nat)) (il : Nat)
       (salt : Option (List Nat)) (sl : Nat) (outN : Bool) (sz : Nat)
       (r : ChanResp),
       dispatchBounded (psa_asymmetric_decrypt k a inp il salt sl outN
         sz r)) := by
  refine ⟨?_, ?_, ?_, ?_, ?_, ?_, ?_, ?_⟩
  · intro c
    cases c <;> first
      | decide
      | (rename_i b; cases b <;> decide)
  · intro k a n nl ad adl pt ptl ctN cts r
    by_cases h1 : ad = none ∧ adl ≠ 0
    · simp [dispatchBounded, psa_aead_encrypt, h1]
    · by_cases h2 : TFM_CRYPTO_MAX_NONCE_LENGTH < nl
      · simp [dispatchBounded, psa_aead_encrypt, h1, h2]
      · cases ad with
        | none =>
          by_cases h3 : adl = 0 <;>
            simp [dispatchBounded, psa_aead_encrypt, h1, h2, h3]
        | some v =>
          simp [dispatchBounded, psa_aead_encrypt, h1, h2]
  · intro k a n nl ad adl ct ctl ptN pts r
    by_cases h1 : ad = none ∧ adl ≠ 0
    · simp [dispatchBounded, psa_aead_decrypt, h1]
    · by_cases h2 : TFM_CRYPTO_MAX_NONCE_LENGTH < nl
      · simp [dispatchBounded, psa_aead_decrypt, h1, h2]
      · cases ad with
        | none =>
          by_cases h3 : adl = 0 <;>
            simp [dispatchBounded, psa_aead_decrypt, h1, h2, h3]
        | some v =>
          simp [dispatchBounded, psa_aead_decrypt, h1, h2]
  · intro h inp il r
    by_cases h1 : inp = none ∧ il ≠ 0
    · simp [dispatchBounded, psa_aead_update_ad, h1]
    · cases inp with
      | none =>
        by_cases h3 : il = 0 <;>
          simp [dispatchBounded, psa_aead_update_ad, h1, h3]
      | some v =>
        simp [dispatchBounded, psa_aead_update_ad, h1]
  · intro h ctN cts ctLenN tagN tagSz r
    by_cases h1 : ctN ∧ cts ≠ 0
    · simp [dispatchBounded, psa_aead_finish, h1]
    · by_cases h2 : ctN ∨ cts = 0
      · simp [dispatchBounded, psa_aead_finish, h1, h2]
      · cases ctLenN <;> simp [dispatchBounded, psa_aead_finish, h1, h2]
  · intro h ptN pts ptLenN tag tl r
    by_cases h1 : ptN ∧ pts ≠ 0
    · simp [dispatchBounded, psa_aead_verify, h1]
    · by_cases h2 : ptN ∨ pts = 0
      · simp [dispatchBounded, psa_aead_verify, h1, h2]
      · cases ptLenN <;> simp [dispatchBounded, psa_aead_verify, h1, h2]
  · intro k a inp il salt sl outN sz r
    by_cases h1 : salt = none ∧ sl ≠ 0
    · simp [dispatchBounded, psa_asymmetric_encrypt, h1]
    · cases salt with
      | none =>
        by_cases h3 : sl = 0 <;>
          simp [dispatchBounded, psa_asymmetric_encrypt, h1, h3]
      | some v =>
        simp [dispatchBounded, psa_asymmetric_encrypt, h1]
  · intro k a inp il salt sl outN sz r
    by_cases h1 : salt = none ∧ sl ≠ 0
    · simp [dispatchBounded, psa_asymmetric_decrypt, h1]
    · cases salt with
      | none =>
        by_cases h3 : sl = 0 <;>
          simp [dispatchBounded, psa_asymmetric_decrypt, h1, h3]
      | some v =>
        simp [dispatchBounded, psa_asymmetric_decrypt, h1]

/-- Every streaming call leaves a definite value in the operation's handle
field: the channel-written word after a dispatch, the unchanged input
handle after a local early return. -/
lemma stepCall_handleAfter_isSome (h : Nat) (s : StreamStep) (r : ChanResp) :
    (stepCall h s r).handleAfter
      = some ((stepCall h s r).handleAfter.getD h) := by
  cases s <;>
    simp [stepCall, psa_cipher_encrypt_setup, psa_cipher_decrypt_setup,
          psa_cipher_generate_iv, psa_cipher_set_iv, psa_cipher_update,
          psa_cipher_finish, psa_cipher_abort, psa_hash_setup,
          psa_hash_update, psa_hash_finish, psa_hash_verify, psa_hash_abort,
          psa_aead_update_ad, psa_aead_finish, psa_aead_verify,
          psa_mac_sign_setup, psa_mac_verify_setup, psa_mac_update,
          psa_mac_sign_finish, psa_mac_verify_finish, psa_mac_abort,
          psa_aead_encrypt_setup, psa_aead_decrypt_setup,
          psa_aead_generate_nonce, psa_aead_set_nonce, psa_aead_set_lengths,
          psa_aead_update, psa_aead_abort, psa_key_derivation_setup,
          psa_key_derivation_get_capacity, psa_key_derivation_set_capacity,
          psa_key_derivation_input_bytes, psa_key_derivation_input_key,
          psa_key_derivation_key_agreement,
          psa_key_derivation_output_bytes, psa_key_derivation_output_key,
          psa_key_derivation_abort] <;>
    (try split) <;> (try split) <;> simp

/-- Every streaming call that dispatches places the operation's current
handle field in the envelope it sends. -/
lemma stepCall_suppliedHandle (h : Nat) (s : StreamStep) (r : ChanResp) :
    (stepCall h s r).suppliedHandle = none ∨
      (stepCall h s r).suppliedHandle = some h := by
  cases s with
  | aeadUpdateAd input inLen =>
    by_cases h1 : input = none ∧ inLen ≠ 0
    · simp [stepCall, psa_aead_update_ad, h1, CallOut.suppliedHandle,
            CallOut.sentEnvelope]
    · cases input with
      | none =>
        by_cases h3 : inLen = 0 <;>
          simp [stepCall, psa_aead_update_ad, h1, h3,
                CallOut.suppliedHandle, CallOut.sentEnvelope]
      | some v =>
        simp [stepCall, psa_aead_update_ad, h1, CallOut.suppliedHandle,
              CallOut.sentEnvelope]
  | aeadFinish ctN ctSize ctLenN tagN tagSize =>
    by_cases h1 : ctN ∧ ctSize ≠ 0
    · simp [stepCall, psa_aead_finish, h1, CallOut.suppliedHandle,
            CallOut.sentEnvelope]
    · by_cases h2 : (ctN = false ∧ ¬ctSize = 0) ∧ ctLenN = true
      · simp [stepCall, psa_aead_finish, h1, h2, CallOut.suppliedHandle,
              CallOut.sentEnvelope]
      · simp [stepCall, psa_aead_finish, h1, h2, CallOut.suppliedHandle,
              CallOut.sentEnvelope]
  | aeadVerify ptN ptSize ptLenN tag tagLen =>
    by_cases h1 : ptN ∧ ptSize ≠ 0
    · simp [stepCall, psa_aead_verify, h1, CallOut.suppliedHandle,
            CallOut.sentEnvelope]
    · by_cases h2 : (ptN = false ∧ ¬ptSize = 0) ∧ ptLenN = true
      · simp [stepCall, psa_aead_verify, h1, h2, CallOut.suppliedHandle,
              CallOut.sentEnvelope]
      · simp [stepCall, psa_aead_verify, h1, h2, CallOut.suppliedHandle,
              CallOut.sentEnvelope]
  | cipherEncryptSetup key alg =>
    simp [stepCall, psa_cipher_encrypt_setup, CallOut.suppliedHandle,
          CallOut.sentEnvelope]
  | cipherDecryptSetup key alg =>
    simp [stepCall, psa_cipher_decrypt_setup, CallOut.suppliedHandle,
          CallOut.sentEnvelope]
  | cipherGenIv ivNull ivSize =>
    simp [stepCall, psa_cipher_generate_iv, CallOut.suppliedHandle,
          CallOut.sentEnvelope]
  | cipherSetIv iv ivLen =>
    simp [stepCall, psa_cipher_set_iv, CallOut.suppliedHandle,
          CallOut.sentEnvelope]
  | cipherUpdate input inLen outNull outSize =>
    simp [stepCall, psa_cipher_update, CallOut.suppliedHandle,
          CallOut.sentEnvelope]
  | cipherFinish outNull outSize =>
    simp [stepCall, psa_cipher_finish, CallOut.suppliedHandle,
          CallOut.sentEnvelope]
  | cipherAbort =>
    simp [stepCall, psa_cipher_abort, CallOut.suppliedHandle,
          CallOut.sentEnvelope]
  | hashSetup alg =>
    simp [stepCall, psa_hash_setup, CallOut.suppliedHandle,
          CallOut.sentEnvelope]
  | hashUpdate input inLen =>
    simp [stepCall, psa_hash_update, CallOut.suppliedHandle,
          CallOut.sentEnvelope]
  | hashFinish hashNull hashSize =>
    simp [stepCall, psa_hash_finish, CallOut.suppliedHandle,
          CallOut.sentEnvelope]
  | hashVerify hash hashLen =>
    simp [stepCall, psa_hash_verify, CallOut.suppliedHandle,
          CallOut.sentEnvelope]
  | hashAbort =>
    simp [stepCall, psa_hash_abort, CallOut.suppliedHandle,
          CallOut.sentEnvelope]
  | macSignSetup key alg =>
    simp [stepCall, psa_mac_sign_setup, CallOut.suppliedHandle,
          CallOut.sentEnvelope]
  | macVerifySetup key alg =>
    simp [stepCall, psa_mac_verify_setup, CallOut.suppliedHandle,
          CallOut.sentEnvelope]
  | macUpdate input inLen =>
    simp [stepCall, psa_mac_update, CallOut.suppliedHandle,
          CallOut.sentEnvelope]
  | macSignFinish macNull macSize =>
    simp [stepCall, psa_mac_sign_finish, CallOut.suppliedHandle,
          CallOut.sentEnvelope]
  | macVerifyFinish mac macLen =>
    simp [stepCall, psa_mac_verify_finish, CallOut.suppliedHandle,
          CallOut.sentEnvelope]
  | macAbort =>
    simp [stepCall, psa_mac_abort, CallOut.suppliedHandle,
          CallOut.sentEnvelope]
  | aeadEncryptSetup key alg =>
    simp [stepCall, psa_aead_encrypt_setup, CallOut.suppliedHandle,
          CallOut.sentEnvelope]
  | aeadDecryptSetup key alg =>
    simp [stepCall, psa_aead_decrypt_setup, CallOut.suppliedHandle,
          CallOut.sentEnvelope]
  | aeadGenerateNonce nonceNull nonceSize =>
    simp [stepCall, psa_aead_generate_nonce, CallOut.suppliedHandle,
          CallOut.sentEnvelope]
  | aeadSetNonce nonce nonceLen =>
    simp [stepCall, psa_aead_set_nonce, CallOut.suppliedHandle,
          CallOut.sentEnvelope]
  | aeadSetLengths adLen ptLen =>
    simp [stepCall, psa_aead_set_lengths, CallOut.suppliedHandle,
          CallOut.sentEnvelope]
  | aeadUpdate input inLen outNull outSize =>
    by_cases h1 : input = none ∧ inLen ≠ 0
    · simp [stepCall, psa_aead_update, h1, CallOut.suppliedHandle,
            CallOut.sentEnvelope]
    · cases input with
      | none =>
        by_cases h3 : inLen = 0 <;>
          simp [stepCall, psa_aead_update, h1, h3,
                CallOut.suppliedHandle, CallOut.sentEnvelope]
      | some v =>
        simp [stepCall, psa_aead_update, h1, CallOut.suppliedHandle,
              CallOut.sentEnvelope]
  | aeadAbort =>
    simp [stepCall, psa_aead_abort, CallOut.suppliedHandle,
          CallOut.sentEnvelope]
  | kdSetup alg =>
    simp [stepCall, psa_key_derivation_setup, CallOut.suppliedHandle,
          CallOut.sentEnvelope]
  | kdGetCapacity capNull =>
    simp [stepCall, psa_key_derivation_get_capacity,
          CallOut.suppliedHandle, CallOut.sentEnvelope]
  | kdSetCapacity capacity =>
    simp [stepCall, psa_key_derivation_set_capacity,
          CallOut.suppliedHandle, CallOut.sentEnvelope]
  | kdInputBytes stp data dataLen =>
    simp [stepCall, psa_key_derivation_input_bytes,
          CallOut.suppliedHandle, CallOut.sentEnvelope]
  | kdInputKey stp key =>
    simp [stepCall, psa_key_derivation_input_key, CallOut.suppliedHandle,
          CallOut.sentEnvelope]
  | kdKeyAgreement stp key peer peerLen =>
    simp [stepCall, psa_key_derivation_key_agreement,
          CallOut.suppliedHandle, CallOut.sentEnvelope]
  | kdOutputBytes outNull outLen =>
    simp [stepCall, psa_key_derivation_output_bytes,
          CallOut.suppliedHandle, CallOut.sentEnvelope]
  | kdOutputKey keyIdNull =>
    simp [stepCall, psa_key_derivation_output_key,
          CallOut.suppliedHandle, CallOut.sentEnvelope]
  | kdAbort =>
    simp [stepCall, psa_key_derivation_abort, CallOut.suppliedHandle,
          CallOut.sentEnvelope]

/-- The first call of a run sends the initial handle (when it dispatches). -/
lemma runStream_head (h : Nat) (steps : List (StreamStep × ChanResp))
    (c : CallOut) (hc : (runStream h steps)[0]? = some c) :
    c.suppliedHandle = none ∨ c.suppliedHandle = some h := by
  cases steps with
  | nil => simp [runStream] at hc
  | cons p rest =>
    obtain ⟨s, r⟩ := p
    simp [runStream] at hc
    subst hc
    exact stepCall_suppliedHandle h s r

/-- Chaining lemma for C5: in any run, the handle sent by call `i + 1`
equals the handle left in the operation object by call `i`. -/
lemma runStream_chain (steps : List (StreamStep × ChanResp)) :
    ∀ (h : Nat) (i : Nat) (c c' : CallOut),
      (runStream h steps)[i]? = some c →
      (runStream h steps)[i + 1]? = some c' →
      c'.suppliedHandle = none ∨ c'.suppliedHandle = c.handleAfter := by
  induction steps with
  | nil =>
    intro h i c c' hc
    simp [runStream] at hc
  | cons p rest ih =>
    intro h i c c' hc hc'
    obtain ⟨s, r⟩ := p
    cases i with
    | zero =>
      simp [runStream] at hc hc'
      subst hc
      rcases runStream_head _ rest c' hc' with hnone | hsup
      · exact Or.inl hnone
      · right
        rw [hsup]
        exact (stepCall_handleAfter_isSome h s r).symm
    | succ j =>
      simp [runStream] at hc hc'
      exact ih ((stepCall h s r).handleAfter.getD h) j c c' hc hc'

/-- C5: continuation-handle threading. Running any sequence of streaming
calls — every streaming function of the file: the cipher, hash, MAC, AEAD
and key-derivation setup/update/finish/verify/abort steps — against one
operation-state object, the handle placed in the envelope of call `N + 1`
equals the handle value left in the operation object by call `N`, and the
first call sends the object's initial handle value (0 for a fresh object);
calls that return locally without dispatching send no envelope and leave
the handle unchanged. -/
theorem continuation_handle_threading :
    (∀ (h : Nat) (steps : List (StreamStep × ChanResp)) (c : CallOut),
       (runStream h steps)[0]? = some c →
       c.suppliedHandle = none ∨ c.suppliedHandle = some h) ∧
    (∀ (h : Nat) (steps : List (StreamStep × ChanResp)) (i : Nat)
       (c c' : CallOut),
       (runStream h steps)[i]? = some c →
       (runStream h steps)[i + 1]? = some c' →
       c'.suppliedHandle = none ∨ c'.suppliedHandle = c.handleAfter) :=
  ⟨fun h steps c hc => runStream_head h steps c hc,
   fun h steps i c c' hc hc' => runStream_chain steps h i c c' hc hc'⟩

/-- Demonstration run for the C5 witness: setup, two updates, finish
against a fresh cipher operation (initial handle 0), the channel assigning
handle 11, then 12, then 13. -/
def demoSteps : List (StreamStep × ChanResp) :=
  [(.cipherEncryptSetup 1 2, ⟨0, [4], 11⟩),
   (.cipherUpdate (some [5, 6]) 2 false 16, ⟨0, [4, 16], 12⟩),
   (.cipherUpdate (some [7]) 1 false 16, ⟨0, [4, 16], 13⟩),
   (.cipherFinish false 16, ⟨0, [4, 8], 13⟩)]

/-- First call of the demonstration run. -/
def demoC0 : CallOut := stepCall 0 (.cipherEncryptSetup 1 2) ⟨0, [4], 11⟩

/-- Second call of the demonstration run (operation handle now 11). -/
def demoC1 : CallOut :=
  stepCall 11 (.cipherUpdate (some [5, 6]) 2 false 16) ⟨0, [4, 16], 12⟩

/-- Witness for C5: in the demonstration run, the second call's envelope
carries exactly the handle the first call wrote back. -/
theorem continuation_handle_threading_witness :
    ((runStream 0 demoSteps)[0]? = some demoC0) ∧
    ((runStream 0 demoSteps)[1]? = some demoC1) ∧
    (demoC1.suppliedHandle = none ∨
       demoC1.suppliedHandle = demoC0.handleAfter) :=
  ⟨by decide, by decide,
   continuation_handle_threading.2 0 demoSteps 0 demoC0 demoC1 (by decide)
     (by decide)⟩

/-- Witness for C4: the dispatch of a concrete AEAD encrypt call carries
3 + 1 descriptors. -/
theorem descriptor_total_at_most_four_witness :
    ((psa_aead_encrypt 1 2 none 0 (some [9]) 1 (some [8]) 1 false 4
        ⟨0, [4], 0⟩).dispatches.headD ⟨[], []⟩).inVec.length +
      ((psa_aead_encrypt 1 2 none 0 (some [9]) 1 (some [8]) 1 false 4
        ⟨0, [4], 0⟩).dispatches.headD ⟨[], []⟩).outVec.length ≤ 4 :=
  descriptor_total_at_most_four.2.1 1 2 none 0 (some [9]) 1 (some [8]) 1
    false 4 ⟨0, [4], 0⟩
    ((psa_aead_encrypt 1 2 none 0 (some [9]) 1 (some [8]) 1 false 4
        ⟨0, [4], 0⟩).dispatches.headD ⟨[], []⟩) (by decide)
